import Mathlib

/-!
# SIMNRA automation binding: adapter and facade

A shallow embedding of `include/simnra.h` and `src/simnra.cpp`.

* The COM runtime and the remote SIMNRA server are not part of the repository.
  Every entry point of theirs that the code calls is a field of `ComApi`, a
  record of state-passing functions over an arbitrary server state `σ`.
* A running process is a `Process σ`: the server state, the list of COM calls
  made so far (in order) and the lines written to `std::wcerr`.
* A C++ function is a `Proc σ α`: it maps a process to an `Outcome` and the
  process it leaves behind. An outcome is a normal return, a thrown
  `std::runtime_error`, a call of `exit`, or undefined behaviour.
* Storage is not modelled: `SysAllocString` and `VariantClear` leave no mark. A `BSTR`
  is either the null pointer or the list of its code units, embedded NULs included.
* The definitions come first (the embedding, then the predicates and the stub server
  the statements use), the lemmas and the theorems on the claims after them.
-/

namespace SIMNRAApp

/-! ## Scalars and strings -/

/-- An IEEE-754 binary32 value (C++ `float`), given by its 32-bit pattern. -/
structure float where
  bits : Nat
deriving DecidableEq, Repr

/-- An IEEE-754 binary64 value (C++ `double`), given by its 64-bit pattern. -/
structure double where
  bits : Nat
deriving DecidableEq, Repr

/-- Number of significant bits of `m`, for `m < 2 ^ fuel`. -/
def bitLength : Nat → Nat → Nat
  | 0, _ => 0
  | fuel + 1, m => if m = 0 then 0 else bitLength fuel (m / 2) + 1

/-- The conversion `static_cast<double>(float)`: exact, every binary32 value is a
binary64 value. Subnormals are renormalised, a signalling NaN is quieted. -/
def floatToDouble (f : float) : double :=
  let sign := f.bits / 2 ^ 31 % 2
  let expo := f.bits / 2 ^ 23 % 256
  let frac := f.bits % 2 ^ 23
  if expo = 255 then
    ⟨sign * 2 ^ 63 + 2047 * 2 ^ 52 + (if frac = 0 then 0 else (frac * 2 ^ 29) ||| 2 ^ 51)⟩
  else if expo = 0 then
    if frac = 0 then ⟨sign * 2 ^ 63⟩
    else
      let k := bitLength 23 frac - 1
      ⟨sign * 2 ^ 63 + (k + 874) * 2 ^ 52 + (frac - 2 ^ k) * 2 ^ (52 - k)⟩
  else ⟨sign * 2 ^ 63 + (expo + 896) * 2 ^ 52 + frac * 2 ^ 29⟩

/-- The conversion `static_cast<double>(int)`: exact for every 32-bit integer. -/
def intToDouble (n : Int) : double :=
  if n = 0 then ⟨0⟩
  else
    let a := n.natAbs
    let k := bitLength 32 a - 1
    ⟨(if n < 0 then 2 ^ 63 else 0) + (k + 1023) * 2 ^ 52 + (a - 2 ^ k) * 2 ^ (52 - k)⟩

/-- A wide string (`std::wstring`, or the characters of a `BSTR`): its UTF-16 code units. -/
abbrev WString := List Nat

/-- A narrow string (`std::string`): its bytes. -/
abbrev NString := List Nat

/-- The characters a NUL-terminated C string pointer denotes: everything before the
first NUL. This is what `std::wstring(const wchar_t*)`, `std::string(const char*)`,
`std::wstring::c_str` followed by `SysAllocString`, and `_bstr_t(const wchar_t*)` read. -/
def c_str (s : List Nat) : List Nat :=
  s.takeWhile (fun c => c != 0)

/-- The UTF-16 code units of a character: one, or a surrogate pair above the basic plane. -/
def utf16 (c : Char) : List Nat :=
  if c.toNat < 65536 then [c.toNat]
  else [55296 + (c.toNat - 65536) / 1024, 56320 + (c.toNat - 65536) % 1024]

/-- The expression `std::string(s, s + wcslen(s))` on a wide C string `s`: each code unit
before the first NUL becomes one `char`, which keeps its low eight bits. An ASCII string
is unchanged. -/
def narrow (s : String) : String :=
  String.mk (((s.toList.takeWhile (fun c => c.toNat != 0)).map utf16).flatten.map
    (fun u => Char.ofNat (u % 256)))

/-! ## Windows SDK constants and types -/

/-- Windows `HRESULT`: a signed 32-bit status. -/
abbrev HRESULT := Int

/-- The `FAILED` test of `winerror.h`: the status is negative. -/
def FAILED (hr : HRESULT) : Bool := hr < 0

/-- Windows SDK (`winerror.h`): the success status. -/
def S_OK : HRESULT := 0

/-- A member identifier (`DISPID`, a signed 32-bit integer). -/
abbrev DISPID := Int

/-- Windows SDK (`oaidl.h`): the named-argument identifier that marks the value of a
property write. -/
def DISPID_PROPERTYPUT : DISPID := -3

/-- Windows SDK (`oleauto.h`): invocation kind, method call. -/
def DISPATCH_METHOD : Nat := 1

/-- Windows SDK (`oleauto.h`): invocation kind, property read. -/
def DISPATCH_PROPERTYGET : Nat := 2

/-- Windows SDK (`oleauto.h`): invocation kind, property write. -/
def DISPATCH_PROPERTYPUT : Nat := 4

/-- Windows SDK (`wtypes.h`): tag of an empty value. -/
def VT_EMPTY : Nat := 0

/-- Windows SDK (`wtypes.h`): tag of a 32-bit signed integer. -/
def VT_I4 : Nat := 3

/-- Windows SDK (`wtypes.h`): tag of a single-precision float. -/
def VT_R4 : Nat := 4

/-- Windows SDK (`wtypes.h`): tag of a double-precision float. -/
def VT_R8 : Nat := 5

/-- Windows SDK (`wtypes.h`): tag of a length-prefixed wide string. -/
def VT_BSTR : Nat := 8

/-- Windows SDK (`wtypes.h`): tag of a boolean. -/
def VT_BOOL : Nat := 11

/-- Windows SDK (`wtypes.h`): the `VARIANT_BOOL` that stands for true, all sixteen bits set. -/
def VARIANT_TRUE : Int := -1

/-- The cast `static_cast<UINT>(n)` of a container size: `UINT` has 32 bits. -/
def UINT (n : Nat) : Nat := n % 2 ^ 32

/-- The automation tagged value. The C type is a tag `vt` and a union; the code only ever
reads the union member that the tag it has just tested selects, so the members are kept
as separate fields. `lVal` is the 32-bit integer slot, which the code also names `intVal`.
`bstrVal` is a `BSTR`: `none` is the null pointer, which the automation layer uses for the
empty string, and `some w` points to the length-prefixed code units `w`. -/
structure VARIANT where
  vt : Nat
  lVal : Int
  boolVal : Int
  fltVal : float
  dblVal : double
  bstrVal : Option WString
deriving DecidableEq, Repr

/-- The union member `intVal`: the same storage as `lVal`. -/
def VARIANT.intVal (v : VARIANT) : Int := v.lVal

/-- The value `VariantInit` leaves: tag `VT_EMPTY`. -/
def VariantInit : VARIANT :=
  { vt := VT_EMPTY, lVal := 0, boolVal := 0, fltVal := ⟨0⟩, dblVal := ⟨0⟩, bstrVal := none }

/-- The argument block of one invocation. A null `rgdispidNamedArgs` is the empty list. -/
structure DISPPARAMS where
  rgvarg : List VARIANT
  rgdispidNamedArgs : List DISPID
  cArgs : Nat
  cNamedArgs : Nat
deriving DecidableEq, Repr

/-- An `IDispatch*`: `none` is the null pointer, `some h` points to the remote object `h`. -/
abbrev IDispatchPtr := Option Nat

/-- A class identifier. -/
abbrev CLSID := Nat

/-- The exception the code throws, with its `what()` text. -/
structure runtime_error where
  what : String
deriving DecidableEq, Repr

/-! ## The process model -/

/-- The COM runtime and the remote server, as state-passing functions over a server state.
`Invoke` is told whether the caller passed a result slot and returns what the slot then
holds. `ErrorMessage` is `_com_error::ErrorMessage`; `ConvertBSTRToString` is the
wide-to-ANSI conversion behind `_bstr_t::operator const char*`. -/
structure ComApi (σ : Type) where
  CoInitialize : σ → HRESULT × σ
  CoUninitialize : σ → σ
  CLSIDFromProgID : σ → String → (HRESULT × CLSID) × σ
  CoCreateInstance : σ → CLSID → (HRESULT × IDispatchPtr) × σ
  GetIDsOfNames : σ → Nat → String → (HRESULT × DISPID) × σ
  Invoke : σ → Nat → DISPID → Nat → DISPPARAMS → Bool → (HRESULT × VARIANT) × σ
  Release : σ → Nat → σ
  ErrorMessage : HRESULT → String
  ConvertBSTRToString : WString → NString

/-- One call into the COM runtime or the remote server. -/
inductive Call where
  | CoInitialize
  | CoUninitialize
  | CLSIDFromProgID (progID : String)
  | CoCreateInstance (clsid : CLSID)
  | GetIDsOfNames (disp : Nat) (name : String)
  | Invoke (disp : Nat) (dispid : DISPID) (wFlags : Nat) (params : DISPPARAMS) (result : Bool)
  | Release (disp : Nat)
deriving DecidableEq, Repr

/-- The state of the running process. -/
structure Process (σ : Type) where
  com : σ
  trace : List Call
  wcerr : List String

/-- How a C++ function ends. -/
inductive Outcome (α : Type) where
  | returned (a : α)
  | thrown (e : runtime_error)
  | exited (status : Int)
  | undefined
deriving DecidableEq, Repr

/-- A C++ function with effects on the process. -/
def Proc (σ α : Type) : Type := Process σ → Outcome α × Process σ

/-- Normal return. -/
def Proc.pure {σ α : Type} (a : α) : Proc σ α := fun p => (.returned a, p)

/-- Sequencing: the rest runs only after a normal return. -/
def Proc.bind {σ α β : Type} (m : Proc σ α) (f : α → Proc σ β) : Proc σ β := fun p =>
  match m p with
  | (.returned a, q) => f a q
  | (.thrown e, q) => (.thrown e, q)
  | (.exited st, q) => (.exited st, q)
  | (.undefined, q) => (.undefined, q)

instance {σ : Type} : Monad (Proc σ) where
  pure := Proc.pure
  bind := Proc.bind

/-- The statement `throw std::runtime_error(what)`. -/
def throwRuntimeError {σ α : Type} (what : String) : Proc σ α := fun p => (.thrown ⟨what⟩, p)

/-- The call `exit(status)`. -/
def exit {σ α : Type} (status : Int) : Proc σ α := fun p => (.exited status, p)

/-- A member call through a null pointer. -/
def nullDereference {σ α : Type} : Proc σ α := fun p => (.undefined, p)

/-- Writing one line to `std::wcerr`. -/
def wcerrLine {σ : Type} (line : String) : Proc σ Unit := fun p =>
  (.returned (), { p with wcerr := p.wcerr ++ [line] })

/-- How a decode of a tagged value ends: with a value, with a thrown error, or in
undefined behaviour (a read through a null string pointer). -/
inductive Decoded (α : Type) where
  | ok (a : α)
  | error (e : runtime_error)
  | undefined
deriving DecidableEq, Repr

/-- A decode as a step of the process: a value is returned, an error is thrown. -/
def liftDecoded {σ α : Type} : Decoded α → Proc σ α
  | .ok a => Proc.pure a
  | .error e => fun p => (.thrown e, p)
  | .undefined => fun p => (.undefined, p)

/-! ### The external calls, each recorded in the trace -/

/-- The call `CoInitialize(NULL)`. -/
def CoInitialize {σ : Type} (api : ComApi σ) : Proc σ HRESULT := fun p =>
  let r := api.CoInitialize p.com
  (.returned r.1, { p with com := r.2, trace := p.trace ++ [.CoInitialize] })

/-- The call `CoUninitialize()`. -/
def CoUninitialize {σ : Type} (api : ComApi σ) : Proc σ Unit := fun p =>
  (.returned (),
    { p with com := ComApi.CoUninitialize api p.com, trace := p.trace ++ [ Call.CoUninitialize] })

/-- The call `CLSIDFromProgID(progID, &clsid)`. -/
def CLSIDFromProgID {σ : Type} (api : ComApi σ) (progID : String) : Proc σ (HRESULT × CLSID) :=
  fun p =>
    let r := api.CLSIDFromProgID p.com progID
    (.returned r.1, { p with com := r.2, trace := p.trace ++ [.CLSIDFromProgID progID] })

/-- The call `CoCreateInstance(clsid, NULL, CLSCTX_LOCAL_SERVER, IID_IDispatch, &disp)`. -/
def CoCreateInstance {σ : Type} (api : ComApi σ) (clsid : CLSID) :
    Proc σ (HRESULT × IDispatchPtr) := fun p =>
  let r := api.CoCreateInstance p.com clsid
  (.returned r.1, { p with com := r.2, trace := p.trace ++ [.CoCreateInstance clsid] })

/-- The member call `disp->GetIDsOfNames(IID_NULL, &name, 1, LOCALE_USER_DEFAULT, &dispid)`. -/
def IDispatch.GetIDsOfNames {σ : Type} (api : ComApi σ) (disp : Nat) (name : String) :
    Proc σ (HRESULT × DISPID) := fun p =>
  let r := api.GetIDsOfNames p.com disp name
  (.returned r.1, { p with com := r.2, trace := p.trace ++ [.GetIDsOfNames disp name] })

/-- The member call `disp->Invoke(dispid, IID_NULL, LOCALE_USER_DEFAULT, wFlags, &params,
pVarResult, nullptr, nullptr)`; `result` says whether `pVarResult` is non-null. -/
def IDispatch.Invoke {σ : Type} (api : ComApi σ) (disp : Nat) (dispid : DISPID) (wFlags : Nat)
    (params : DISPPARAMS) (result : Bool) : Proc σ (HRESULT × VARIANT) := fun p =>
  let r := api.Invoke p.com disp dispid wFlags params result
  (.returned r.1,
    { p with com := r.2, trace := p.trace ++ [.Invoke disp dispid wFlags params result] })

/-- The member call `disp->Release()`. -/
def IDispatch.Release {σ : Type} (api : ComApi σ) (disp : Nat) : Proc σ Unit := fun p =>
  (.returned (), { p with com := api.Release p.com disp, trace := p.trace ++ [.Release disp] })

/-! ## `src/simnra.cpp` -/

/-- Source: `MakeIntArg`. -/
def MakeIntArg (val : Int) : VARIANT :=
  { VariantInit with vt := VT_I4, lVal := val }

/-- Source: `MakeDoubleArg`. -/
def MakeDoubleArg (val : double) : VARIANT :=
  { VariantInit with vt := VT_R8, dblVal := val }

/-- Source: `MakeStringArg`. `SysAllocString(val.c_str())` copies up to the first NUL into
a fresh, non-null `BSTR`. -/
def MakeStringArg (val : WString) : VARIANT :=
  { VariantInit with vt := VT_BSTR, bstrVal := some (c_str val) }

/-- Source: `check_hresult`. A failed status prints one line and ends the process. -/
def check_hresult {σ : Type} (api : ComApi σ) (hr : HRESULT) (msg : String) : Proc σ Unit :=
  if FAILED hr then do
    wcerrLine ("Error: " ++ msg ++ " - " ++ api.ErrorMessage hr)
    exit 1
  else
    pure ()

/-- Source: `InvokeVoidMethod`. There is no null test: a null `disp` is dereferenced. -/
def InvokeVoidMethod {σ : Type} (api : ComApi σ) (disp : IDispatchPtr) (method : String)
    (args : List VARIANT) : Proc σ Unit :=
  match disp with
  | none => nullDereference
  | some h => do
    let (hr, dispid) ← IDispatch.GetIDsOfNames api h method
    check_hresult api hr "GetIDsOfNames failed"
    let args_reverse := args.reverse
    let params : DISPPARAMS :=
      { rgvarg := args_reverse, rgdispidNamedArgs := [], cArgs := UINT args.length,
        cNamedArgs := 0 }
    let (hr, _) ← IDispatch.Invoke api h dispid DISPATCH_METHOD params false
    check_hresult api hr "InvokeVoidMethod failed"

/-- Source: `GetPropertyValue`. -/
def GetPropertyValue {σ : Type} (api : ComApi σ) (disp : IDispatchPtr) (propertyName : String)
    (args : List VARIANT) : Proc σ VARIANT :=
  match disp with
  | none => throwRuntimeError "IDispatch is null"
  | some h => do
    let (hr, dispid) ← IDispatch.GetIDsOfNames api h propertyName
    check_hresult api hr "GetIDsOfNames failed"
    let args_reverse := args.reverse
    let dp : DISPPARAMS :=
      { cArgs := UINT args_reverse.length, rgvarg := args_reverse, cNamedArgs := 0,
        rgdispidNamedArgs := [] }
    let (hr, result) ← IDispatch.Invoke api h dispid DISPATCH_PROPERTYGET dp true
    check_hresult api hr "Invoke PROPERTYGET failed"
    return result

/-- Source: `SetPropertyValue`. -/
def SetPropertyValue {σ : Type} (api : ComApi σ) (disp : IDispatchPtr) (propertyName : String)
    (args : List VARIANT) : Proc σ Unit :=
  match disp with
  | none => throwRuntimeError "IDispatch is null"
  | some h =>
    if args.isEmpty then
      throwRuntimeError "Setter requires at least one argument (value to set)"
    else do
      let (hr, dispid) ← IDispatch.GetIDsOfNames api h propertyName
      check_hresult api hr "GetIDsOfNames failed"
      let namedArg := DISPID_PROPERTYPUT
      let args_reverse := args.reverse
      let dp : DISPPARAMS :=
        { cArgs := UINT args_reverse.length, rgvarg := args_reverse, cNamedArgs := 1,
          rgdispidNamedArgs := [namedArg] }
      let (hr, _) ← IDispatch.Invoke api h dispid DISPATCH_PROPERTYPUT dp false
      check_hresult api hr "Invoke PROPERTYPUT failed"

/-- Source: `CreateDispatch`. Both failures are thrown, not passed to `check_hresult`; the
text of the error carries the program identifier narrowed to `char`. -/
def CreateDispatch {σ : Type} (api : ComApi σ) (progID : String) : Proc σ IDispatchPtr := do
  let (hr, clsid) ← CLSIDFromProgID api progID
  if FAILED hr then
    throwRuntimeError ("CLSIDFromProgID failed for " ++ narrow progID)
  else do
    let (hr, disp) ← CoCreateInstance api clsid
    if FAILED hr || disp.isNone then
      throwRuntimeError ("CoCreateInstance failed for " ++ narrow progID)
    else
      return disp

/-! ## `include/simnra.h` -/

/-- The types the templates `variantTo<T>` and `InvokeMethod<T>` are instantiated at. -/
inductive CppType where
  | int
  | bool
  | double
  | wstring
  | string
deriving DecidableEq, Repr

/-- The values of a C++ type. -/
def CppType.val : CppType → Type
  | .int => Int
  | .bool => Bool
  | .double => SIMNRAApp.double
  | .wstring => WString
  | .string => NString

/-- The value-initialised `T{}`. -/
def CppType.zero : (T : CppType) → T.val
  | .int => (0 : Int)
  | .bool => false
  | .double => (⟨0⟩ : SIMNRAApp.double)
  | .wstring => ([] : WString)
  | .string => ([] : NString)

/-- Source: `variantTo<T>`. One branch per `if constexpr` arm; any other `T` does not compile.
The two string arms have no null test. `std::wstring(var.bstrVal)` reads the pointer as a
C string: undefined on a null `BSTR`, and up to the first NUL otherwise. The narrow arm
goes through `_bstr_t`, which copies the same C string, converts it, and hands
`std::string` a null pointer when the `BSTR` is null. -/
def variantTo {σ : Type} (api : ComApi σ) : (T : CppType) → VARIANT → Decoded T.val
  | .int, var =>
    if var.vt = VT_I4 then .ok var.lVal
    else .error ⟨"Variant is not an int (VT_I4)"⟩
  | .bool, var =>
    if var.vt = VT_BOOL then .ok (decide (var.boolVal = VARIANT_TRUE))
    else .error ⟨"Variant is not a bool (VT_BOOL)"⟩
  | .double, var =>
    if var.vt = VT_R8 then .ok var.dblVal
    else if var.vt = VT_R4 then .ok (floatToDouble var.fltVal)
    else .error ⟨"Variant is not a double (VT_R8 or VT_R4)"⟩
  | .wstring, var =>
    if var.vt = VT_BSTR then
      match var.bstrVal with
      | some w => .ok (c_str w)
      | none => .undefined
    else .error ⟨"Variant is not a BSTR (wstring)"⟩
  | .string, var =>
    if var.vt = VT_BSTR then
      match var.bstrVal with
      | some w => .ok (c_str (api.ConvertBSTRToString (c_str w)))
      | none => .undefined
    else .error ⟨"Variant is not a BSTR (string)"⟩

/-- Source: the block `// Extract result` of `InvokeMethod<T>`. A `T` other than `double`,
`int`, `std::wstring` has no arm and keeps the value-initialised `T{}`. The string arm
reads `SysStringLen` code units, so it does not stop at a NUL; on a null `BSTR` the
length is 0 and the string is empty. -/
def InvokeMethod.extract : (T : CppType) → VARIANT → Decoded T.val
  | .double, result =>
    if result.vt = VT_R8 then .ok result.dblVal
    else if result.vt = VT_I4 then .ok (intToDouble result.intVal)
    else .error ⟨"Unexpected return type for double"⟩
  | .int, result =>
    if result.vt = VT_I4 then .ok result.intVal
    else .error ⟨"Unexpected return type for int"⟩
  | .wstring, result =>
    if result.vt = VT_BSTR then .ok (result.bstrVal.getD [])
    else .error ⟨"Unexpected return type for string"⟩
  | .bool, _ => .ok (CppType.zero .bool)
  | .string, _ => .ok (CppType.zero .string)

/-- Source: `InvokeMethod<T>`. -/
def InvokeMethod {σ : Type} (api : ComApi σ) (T : CppType) (disp : IDispatchPtr)
    (methodName : String) (args : List VARIANT) : Proc σ T.val :=
  match disp with
  | none => throwRuntimeError "IDispatch is null"
  | some h => do
    let (hr, dispid) ← IDispatch.GetIDsOfNames api h methodName
    check_hresult api hr "GetIDsOfNames failed"
    let reversedArgs := args.reverse
    let dp : DISPPARAMS :=
      { cArgs := UINT reversedArgs.length, rgvarg := reversedArgs, cNamedArgs := 0,
        rgdispidNamedArgs := [] }
    let (hr, result) ← IDispatch.Invoke api h dispid DISPATCH_METHOD dp true
    check_hresult api hr "Invoke failed"
    let value ← liftDecoded (InvokeMethod.extract T result)
    return value

/-- Source: the data members of `class SIMNRA`, one handle per sub-object. -/
structure SIMNRA where
  m_App : IDispatchPtr
  m_Setup : IDispatchPtr
  m_Target : IDispatchPtr
  m_Calc : IDispatchPtr
  m_Fit : IDispatchPtr
  m_Projectile : IDispatchPtr
  m_Spectrum : IDispatchPtr
  m_Stopping : IDispatchPtr
  m_PIGE : IDispatchPtr
  m_CrossSec : IDispatchPtr
deriving DecidableEq, Repr

/-- Source: the constructor `SIMNRA::SIMNRA`. When a statement of the body throws, the
exception leaves the constructor and no object exists: C++ runs the destructor only of
an object whose constructor has completed, and the members are raw pointers. -/
def SIMNRA.constructor {σ : Type} (api : ComApi σ) : Proc σ SIMNRA := do
  let hr ← CoInitialize api
  if FAILED hr then
    throwRuntimeError "Failed to initialize COM"
  else do
    let m_App ← CreateDispatch api "SIMNRA.app"
    let m_Setup ← CreateDispatch api "SIMNRA.setup"
    let m_Target ← CreateDispatch api "SIMNRA.target"
    let m_Calc ← CreateDispatch api "SIMNRA.calc"
    let m_Fit ← CreateDispatch api "SIMNRA.fit"
    let m_Projectile ← CreateDispatch api "SIMNRA.projectile"
    let m_Spectrum ← CreateDispatch api "SIMNRA.spectrum"
    let m_Stopping ← CreateDispatch api "SIMNRA.stopping"
    let m_PIGE ← CreateDispatch api "SIMNRA.pige"
    let m_CrossSec ← CreateDispatch api "SIMNRA.crosssec"
    return { m_App, m_Setup, m_Target, m_Calc, m_Fit, m_Projectile, m_Spectrum, m_Stopping,
             m_PIGE, m_CrossSec }

/-- The statement `if (m) m->Release();` of the destructor. -/
def releaseIfSet {σ : Type} (api : ComApi σ) : IDispatchPtr → Proc σ Unit
  | none => pure ()
  | some h => IDispatch.Release api h

/-- Source: the destructor `SIMNRA::~SIMNRA`. -/
def SIMNRA.destructor {σ : Type} (api : ComApi σ) (self : SIMNRA) : Proc σ Unit := do
  releaseIfSet api self.m_App
  releaseIfSet api self.m_Setup
  releaseIfSet api self.m_Target
  releaseIfSet api self.m_Calc
  releaseIfSet api self.m_Fit
  releaseIfSet api self.m_Projectile
  releaseIfSet api self.m_Spectrum
  releaseIfSet api self.m_Stopping
  releaseIfSet api self.m_PIGE
  releaseIfSet api self.m_CrossSec
  CoUninitialize api

/-! ### The facade

An argument with a default value is an `Option`: `none` is the call that omits it. -/

/-- Source: `SIMNRA::getLastMessage`. -/
def SIMNRA.getLastMessage {σ : Type} (api : ComApi σ) (self : SIMNRA) : Proc σ WString := do
  let v ← GetPropertyValue api self.m_App "LastMessage" []
  liftDecoded (variantTo api .wstring v)

/-- Source: `SIMNRA::open`, `type` defaults to -1. The `const wchar_t*` file name becomes the
`std::wstring` parameter of `MakeStringArg`. -/
def SIMNRA.open {σ : Type} (api : ComApi σ) (self : SIMNRA) (filename : WString)
    (type : Option Int) : Proc σ Unit :=
  InvokeVoidMethod api self.m_App "Open"
    [MakeStringArg (c_str filename), MakeIntArg (type.getD (-1))]

/-- Source: `SIMNRA::calculateSpectrum`. -/
def SIMNRA.calculateSpectrum {σ : Type} (api : ComApi σ) (self : SIMNRA) : Proc σ Unit :=
  InvokeVoidMethod api self.m_App "CalculateSpectrum" []

/-- Source: `SIMNRA::calculateSpectrumFast`. -/
def SIMNRA.calculateSpectrumFast {σ : Type} (api : ComApi σ) (self : SIMNRA) : Proc σ Unit :=
  InvokeVoidMethod api self.m_App "CalculateSpectrumFast" []

/-- Source: `SIMNRA::getNumberOfLayers`. -/
def SIMNRA.getNumberOfLayers {σ : Type} (api : ComApi σ) (self : SIMNRA) : Proc σ Int := do
  let v ← GetPropertyValue api self.m_Target "NumberOfLayers" []
  liftDecoded (variantTo api .int v)

/-- Source: `SIMNRA::setNumberOfLayers`. -/
def SIMNRA.setNumberOfLayers {σ : Type} (api : ComApi σ) (self : SIMNRA) (numLayers : Int) :
    Proc σ Unit :=
  SetPropertyValue api self.m_Target "NumberOfLayers" [MakeIntArg numLayers]

/-- Source: `SIMNRA::getLayerThickness`, `layerIndex` defaults to 1. -/
def SIMNRA.getLayerThickness {σ : Type} (api : ComApi σ) (self : SIMNRA)
    (layerIndex : Option Int) : Proc σ double := do
  let v ← GetPropertyValue api self.m_Target "LayerThickness" [MakeIntArg (layerIndex.getD 1)]
  liftDecoded (variantTo api .double v)

/-- Source: `SIMNRA::setLayerThickness`; neither argument has a default. -/
def SIMNRA.setLayerThickness {σ : Type} (api : ComApi σ) (self : SIMNRA) (layerIndex : Int)
    (thick : double) : Proc σ Unit :=
  SetPropertyValue api self.m_Target "LayerThickness"
    [MakeIntArg layerIndex, MakeDoubleArg thick]

/-- Source: `SIMNRA::getNumberOfElements`, `layerIndex` defaults to 1. -/
def SIMNRA.getNumberOfElements {σ : Type} (api : ComApi σ) (self : SIMNRA)
    (layerIndex : Option Int) : Proc σ Int := do
  let v ← GetPropertyValue api self.m_Target "NumberOfElements" [MakeIntArg (layerIndex.getD 1)]
  liftDecoded (variantTo api .int v)

/-- Source: `SIMNRA::setNumberOfElements`, both arguments default to 1. -/
def SIMNRA.setNumberOfElements {σ : Type} (api : ComApi σ) (self : SIMNRA)
    (layerIndex numEl : Option Int) : Proc σ Unit :=
  SetPropertyValue api self.m_Target "NumberOfElements"
    [MakeIntArg (layerIndex.getD 1), MakeIntArg (numEl.getD 1)]

/-- Source: `SIMNRA::getElementName`, both indices default to 1. -/
def SIMNRA.getElementName {σ : Type} (api : ComApi σ) (self : SIMNRA)
    (layerIndex elementIndex : Option Int) : Proc σ WString := do
  let v ← GetPropertyValue api self.m_Target "ElementName"
    [MakeIntArg (layerIndex.getD 1), MakeIntArg (elementIndex.getD 1)]
  liftDecoded (variantTo api .wstring v)

/-- Source: `SIMNRA::setElementName`, the indices default to 1 and the name to the empty string. -/
def SIMNRA.setElementName {σ : Type} (api : ComApi σ) (self : SIMNRA)
    (layerIndex elementIndex : Option Int) (elname : Option WString) : Proc σ Unit :=
  SetPropertyValue api self.m_Target "ElementName"
    [MakeIntArg (layerIndex.getD 1), MakeIntArg (elementIndex.getD 1),
     MakeStringArg (elname.getD [])]

/-- Source: `SIMNRA::getElementConcentration`, both indices default to 1. -/
def SIMNRA.getElementConcentration {σ : Type} (api : ComApi σ) (self : SIMNRA)
    (layerIndex elementIndex : Option Int) : Proc σ double := do
  let v ← GetPropertyValue api self.m_Target "ElementConcentration"
    [MakeIntArg (layerIndex.getD 1), MakeIntArg (elementIndex.getD 1)]
  liftDecoded (variantTo api .double v)

/-- Source: `SIMNRA::setElementConcentration`, the indices default to 1 and the
concentration to 0.0. -/
def SIMNRA.setElementConcentration {σ : Type} (api : ComApi σ) (self : SIMNRA)
    (layerIndex elementIndex : Option Int) (conc : Option double) : Proc σ Unit :=
  SetPropertyValue api self.m_Target "ElementConcentration"
    [MakeIntArg (layerIndex.getD 1), MakeIntArg (elementIndex.getD 1),
     MakeDoubleArg (conc.getD ⟨0⟩)]

/-- Source: `SIMNRA::getBeamEnergyFWHM`. -/
def SIMNRA.getBeamEnergyFWHM {σ : Type} (api : ComApi σ) (self : SIMNRA) : Proc σ double := do
  let v ← GetPropertyValue api self.m_Setup "Beamspread" []
  liftDecoded (variantTo api .double v)

/-- Source: `SIMNRA::setBeamEnergyFWHM`. -/
def SIMNRA.setBeamEnergyFWHM {σ : Type} (api : ComApi σ) (self : SIMNRA) (fwhm : double) :
    Proc σ Unit :=
  SetPropertyValue api self.m_Setup "Beamspread" [MakeDoubleArg fwhm]

/-- Source: `SIMNRA::getBeamEnergy`. -/
def SIMNRA.getBeamEnergy {σ : Type} (api : ComApi σ) (self : SIMNRA) : Proc σ double := do
  let v ← GetPropertyValue api self.m_Setup "Energy" []
  liftDecoded (variantTo api .double v)

/-- Source: `SIMNRA::setBeamEnergy`. -/
def SIMNRA.setBeamEnergy {σ : Type} (api : ComApi σ) (self : SIMNRA) (E : double) :
    Proc σ Unit :=
  SetPropertyValue api self.m_Setup "Energy" [MakeDoubleArg E]

/-- Every call that `m` adds to the trace satisfies `ok`, whatever the outcome. -/
def Proc.Adds {σ α : Type} (ok : Call → Prop) (m : Proc σ α) : Prop :=
  ∀ p, ∃ t, (m p).2.trace = p.trace ++ t ∧ ∀ c ∈ t, ok c

/-- The call is not a `Release`. -/
def Call.notRelease (c : Call) : Prop :=
  ∀ h, c ≠ .Release h

/-- The computation `m` reads, on the object `h`, the property `name` with the call-site
argument list `args` and decodes the value as `T`: when the name resolves to `d`, the calls
`m` makes are that resolution and one `DISPATCH_PROPERTYGET` invocation on `d` carrying
`args` last first; when the invocation is accepted with the value `res`, the outcome of
`m` is that of `variantTo<T>(res)`. -/
def ReadsProperty {σ : Type} (api : ComApi σ) (T : CppType) (m : Proc σ T.val) (h : Nat)
    (name : String) (args : List VARIANT) : Prop :=
  ∀ (p : Process σ) (hr : HRESULT) (d : DISPID) (s1 : σ),
    api.GetIDsOfNames p.com h name = ((hr, d), s1) → FAILED hr = false →
    (m p).2.trace
      = p.trace ++ [.GetIDsOfNames h name,
          .Invoke h d DISPATCH_PROPERTYGET ⟨args.reverse, [], UINT args.length, 0⟩ true]
    ∧ ∀ (hr2 : HRESULT) (res : VARIANT) (s2 : σ),
        api.Invoke s1 h d DISPATCH_PROPERTYGET ⟨args.reverse, [], UINT args.length, 0⟩ true
          = ((hr2, res), s2) →
        FAILED hr2 = false →
        (m p).1 = (match variantTo api T res with
                   | .ok x => .returned x
                   | .error e => .thrown e
                   | .undefined => .undefined)

/-- The computation `m` writes, on the object `h`, the property `name` with the call-site
argument list `args`: when the name resolves to `d`, the calls `m` makes are that
resolution and one `DISPATCH_PROPERTYPUT` invocation on `d` carrying `args` last first,
marked with `DISPID_PROPERTYPUT`. -/
def WritesProperty {σ : Type} (api : ComApi σ) (m : Proc σ Unit) (h : Nat) (name : String)
    (args : List VARIANT) : Prop :=
  ∀ (p : Process σ) (hr : HRESULT) (d : DISPID) (s1 : σ),
    api.GetIDsOfNames p.com h name = ((hr, d), s1) → FAILED hr = false →
    (m p).2.trace
      = p.trace ++ [.GetIDsOfNames h name,
          .Invoke h d DISPATCH_PROPERTYPUT
            ⟨args.reverse, [DISPID_PROPERTYPUT], UINT args.length, 1⟩ false]

/-- The computation `m` calls, on the object `h`, the method `name` with the call-site
argument list `args` and takes no result: when the name resolves to `d`, the calls `m`
makes are that resolution and one `DISPATCH_METHOD` invocation on `d` carrying `args` last
first. -/
def CallsMethod {σ : Type} (api : ComApi σ) (m : Proc σ Unit) (h : Nat) (name : String)
    (args : List VARIANT) : Prop :=
  ∀ (p : Process σ) (hr : HRESULT) (d : DISPID) (s1 : σ),
    api.GetIDsOfNames p.com h name = ((hr, d), s1) → FAILED hr = false →
    (m p).2.trace
      = p.trace ++ [.GetIDsOfNames h name,
          .Invoke h d DISPATCH_METHOD ⟨args.reverse, [], UINT args.length, 0⟩ false]

/-! ## A stub automation server

The remote side used to exercise the adapter: it activates the program identifiers it has
registered, keeps one stored value for the property `NumberOfLayers`, and serves
`ElementName` from a table indexed by layer and element. -/

/-- Windows SDK (`winerror.h`) status: the object has no member of that name. -/
def DISP_E_UNKNOWNNAME : HRESULT := -2147352570

/-- Windows SDK (`winerror.h`) status: the member identifier is not served. -/
def DISP_E_MEMBERNOTFOUND : HRESULT := -2147352573

/-- Windows SDK (`winerror.h`) status: an argument has the wrong tag. -/
def DISP_E_TYPEMISMATCH : HRESULT := -2147352571

/-- Windows SDK (`winerror.h`) status: no entry at that index. -/
def DISP_E_BADINDEX : HRESULT := -2147352565

/-- Windows SDK (`winerror.h`) status: wrong number of arguments. -/
def DISP_E_BADPARAMCOUNT : HRESULT := -2147352562

/-- Windows SDK (`winerror.h`) status: the program identifier is not registered. -/
def REGDB_E_CLASSNOTREG : HRESULT := -2147221164

/-- Modelled from the spec: how a remote object reads its positional arguments under the
reversed transport convention. `rgvarg` holds the arguments last first, so the argument at
call-site position `k` (from 0) is `rgvarg[cArgs - 1 - k]`. -/
def DISPPARAMS.positional (dp : DISPPARAMS) (k : Nat) : Option VARIANT :=
  if k < dp.cArgs then dp.rgvarg[dp.cArgs - 1 - k]? else none

/-- Modelled from the spec: the answer to a property read of `ElementName` by a stub that
maps (layer, element) index pairs to names. The layer is the first and the element the
second positional argument; an index pair without a name is answered with the not-found
status `DISP_E_BADINDEX`. -/
def serveElementName (names : Int → Int → Option WString) (dp : DISPPARAMS) :
    HRESULT × VARIANT :=
  match dp.positional 0, dp.positional 1 with
  | some layer, some element =>
    if layer.vt = VT_I4 ∧ element.vt = VT_I4 then
      match names layer.lVal element.lVal with
      | some name => (S_OK, { VariantInit with vt := VT_BSTR, bstrVal := some name })
      | none => (DISP_E_BADINDEX, VariantInit)
    else (DISP_E_TYPEMISMATCH, VariantInit)
  | _, _ => (DISP_E_BADPARAMCOUNT, VariantInit)

/-- Modelled from the spec: the object `h` of `api` is a stub that stores the value written
by a property write of `name` and echoes it on the next read of the same property. The
name always resolves to one identifier without a change of state, a write of one value
succeeds, and the read that follows it yields that value. -/
def EchoesProperty {σ : Type} (api : ComApi σ) (h : Nat) (name : String) : Prop :=
  ∃ d : DISPID,
    (∀ s, api.GetIDsOfNames s h name = ((S_OK, d), s)) ∧
    (∀ s v,
      (api.Invoke s h d DISPATCH_PROPERTYPUT ⟨[v], [DISPID_PROPERTYPUT], 1, 1⟩ false).1.1 = S_OK ∧
      api.Invoke (api.Invoke s h d DISPATCH_PROPERTYPUT ⟨[v], [DISPID_PROPERTYPUT], 1, 1⟩ false).2
          h d DISPATCH_PROPERTYGET ⟨[], [], 0, 0⟩ true
        = ((S_OK, v),
           (api.Invoke s h d DISPATCH_PROPERTYPUT ⟨[v], [DISPID_PROPERTYPUT], 1, 1⟩ false).2))

/-- The state of the stub server. -/
structure Stub where
  registered : List String
  numberOfLayers : VARIANT
  elementNames : List ((Int × Int) × WString)
deriving DecidableEq, Repr

/-- The name table of a stub as a function. -/
def Stub.names (s : Stub) (layer element : Int) : Option WString :=
  s.elementNames.lookup (layer, element)

/-- The stub server. A handle is the index of its program identifier. -/
def stub : ComApi Stub where
  CoInitialize s := (S_OK, s)
  CoUninitialize s := s
  CLSIDFromProgID s progID :=
    if progID ∈ s.registered then ((S_OK, s.registered.indexOf progID), s)
    else ((REGDB_E_CLASSNOTREG, 0), s)
  CoCreateInstance s clsid := ((S_OK, some clsid), s)
  GetIDsOfNames s _ name :=
    if name = "NumberOfLayers" then ((S_OK, 1), s)
    else if name = "ElementName" then ((S_OK, 2), s)
    else if name = "Open" then ((S_OK, 3), s)
    else if name = "Count" then ((S_OK, 4), s)
    else if name = "LayerThickness" then ((S_OK, 5), s)
    else ((DISP_E_UNKNOWNNAME, -1), s)
  Invoke s _ dispid wFlags dp _ :=
    if dispid = 1 ∧ wFlags = DISPATCH_PROPERTYPUT then
      match dp.rgvarg with
      | [v] => ((S_OK, VariantInit), { s with numberOfLayers := v })
      | _ => ((DISP_E_BADPARAMCOUNT, VariantInit), s)
    else if dispid = 1 ∧ wFlags = DISPATCH_PROPERTYGET then ((S_OK, s.numberOfLayers), s)
    else if dispid = 2 ∧ wFlags = DISPATCH_PROPERTYGET then (serveElementName s.names dp, s)
    else if dispid = 3 ∧ wFlags = DISPATCH_METHOD then ((S_OK, VariantInit), s)
    else if dispid = 4 ∧ wFlags = DISPATCH_METHOD then ((S_OK, s.numberOfLayers), s)
    else if dispid = 5 ∧ wFlags = DISPATCH_PROPERTYPUT then ((S_OK, VariantInit), s)
    else ((DISP_E_MEMBERNOTFOUND, VariantInit), s)
  Release s _ := s
  ErrorMessage _ := "Unknown error"
  ConvertBSTRToString w := w

/-- The ten program identifiers, in the order the constructor activates them. -/
def progIDs : List String :=
  ["SIMNRA.app", "SIMNRA.setup", "SIMNRA.target", "SIMNRA.calc", "SIMNRA.fit",
   "SIMNRA.projectile", "SIMNRA.spectrum", "SIMNRA.stopping", "SIMNRA.pige", "SIMNRA.crosssec"]

/-- A stub with all ten sub-objects registered, a target of no layers, and two names
stored: "H" for layer 1, element 1 and "O" for layer 1, element 2. -/
def stub0 : Stub :=
  { registered := progIDs, numberOfLayers := MakeIntArg 0,
    elementNames := [((1, 1), [72]), ((1, 2), [79])] }

/-- The stub in which only the first `k` program identifiers are registered. -/
def stubWith (k : Nat) : Stub :=
  { stub0 with registered := progIDs.take k }

/-- A fresh process talking to the stub in state `s`. -/
def start (s : Stub) : Process Stub :=
  { com := s, trace := [], wcerr := [] }

/-- The binding a completed constructor leaves against `stub0`. -/
def simnra0 : SIMNRA :=
  { m_App := some 0, m_Setup := some 1, m_Target := some 2, m_Calc := some 3, m_Fit := some 4,
    m_Projectile := some 5, m_Spectrum := some 6, m_Stopping := some 7, m_PIGE := some 8,
    m_CrossSec := some 9 }

/-! ## Lemmas on the process model -/

theorem bind_eq {σ α β : Type} (m : Proc σ α) (f : α → Proc σ β) :
    (m >>= f) = Proc.bind m f := rfl

theorem pure_eq {σ α : Type} (a : α) : (pure a : Proc σ α) = Proc.pure a := rfl

theorem check_hresult_ok {σ : Type} (api : ComApi σ) (hr : HRESULT) (msg : String)
    (h : FAILED hr = false) (p : Process σ) :
    check_hresult api hr msg p = (.returned (), p) := by
  simp [check_hresult, h, pure_eq, Proc.pure]

theorem check_hresult_failed {σ : Type} (api : ComApi σ) (hr : HRESULT) (msg : String)
    (h : FAILED hr = true) (p : Process σ) :
    check_hresult api hr msg p
      = (.exited 1,
         { p with wcerr := p.wcerr ++ ["Error: " ++ msg ++ " - " ++ api.ErrorMessage hr] }) := by
  simp [check_hresult, h, bind_eq, Proc.bind, wcerrLine, exit]

/-! ### What each adapter primitive does on a non-null handle

Three cases each: the name does not resolve, the invocation is rejected, the invocation
succeeds. -/

theorem GetPropertyValue_unresolved {σ : Type} (api : ComApi σ) (h : Nat) (name : String)
    (args : List VARIANT) (p : Process σ) (hr : HRESULT) (d : DISPID) (s1 : σ)
    (hG : api.GetIDsOfNames p.com h name = ((hr, d), s1)) (hres : FAILED hr = true) :
    GetPropertyValue api (some h) name args p
      = (.exited 1,
         { com := s1, trace := p.trace ++ [.GetIDsOfNames h name],
           wcerr := p.wcerr ++ ["Error: GetIDsOfNames failed - " ++ api.ErrorMessage hr] }) := by
  simp [GetPropertyValue, bind_eq, Proc.bind, IDispatch.GetIDsOfNames, hG,
    check_hresult_failed, hres]

theorem GetPropertyValue_rejected {σ : Type} (api : ComApi σ) (h : Nat) (name : String)
    (args : List VARIANT) (p : Process σ) (hr : HRESULT) (d : DISPID) (s1 : σ)
    (hr2 : HRESULT) (res : VARIANT) (s2 : σ)
    (hG : api.GetIDsOfNames p.com h name = ((hr, d), s1)) (hres : FAILED hr = false)
    (hI : api.Invoke s1 h d DISPATCH_PROPERTYGET ⟨args.reverse, [], UINT args.length, 0⟩ true
            = ((hr2, res), s2))
    (hrej : FAILED hr2 = true) :
    GetPropertyValue api (some h) name args p
      = (.exited 1,
         { com := s2,
           trace := p.trace ++ [.GetIDsOfNames h name,
             .Invoke h d DISPATCH_PROPERTYGET ⟨args.reverse, [], UINT args.length, 0⟩ true],
           wcerr := p.wcerr ++
             ["Error: Invoke PROPERTYGET failed - " ++ api.ErrorMessage hr2] }) := by
  simp [GetPropertyValue, bind_eq, Proc.bind, IDispatch.GetIDsOfNames, IDispatch.Invoke, hG, hI,
    check_hresult_ok, check_hresult_failed, hres, hrej]

theorem GetPropertyValue_ok {σ : Type} (api : ComApi σ) (h : Nat) (name : String)
    (args : List VARIANT) (p : Process σ) (hr : HRESULT) (d : DISPID) (s1 : σ)
    (hr2 : HRESULT) (res : VARIANT) (s2 : σ)
    (hG : api.GetIDsOfNames p.com h name = ((hr, d), s1)) (hres : FAILED hr = false)
    (hI : api.Invoke s1 h d DISPATCH_PROPERTYGET ⟨args.reverse, [], UINT args.length, 0⟩ true
            = ((hr2, res), s2))
    (hok : FAILED hr2 = false) :
    GetPropertyValue api (some h) name args p
      = (.returned res,
         { com := s2,
           trace := p.trace ++ [.GetIDsOfNames h name,
             .Invoke h d DISPATCH_PROPERTYGET ⟨args.reverse, [], UINT args.length, 0⟩ true],
           wcerr := p.wcerr }) := by
  simp [GetPropertyValue, bind_eq, pure_eq, Proc.pure, Proc.bind, IDispatch.GetIDsOfNames,
    IDispatch.Invoke, hG, hI, check_hresult_ok, hres, hok]

theorem SetPropertyValue_unresolved {σ : Type} (api : ComApi σ) (h : Nat) (name : String)
    (args : List VARIANT) (p : Process σ) (hr : HRESULT) (d : DISPID) (s1 : σ)
    (hargs : args ≠ [])
    (hG : api.GetIDsOfNames p.com h name = ((hr, d), s1)) (hres : FAILED hr = true) :
    SetPropertyValue api (some h) name args p
      = (.exited 1,
         { com := s1, trace := p.trace ++ [.GetIDsOfNames h name],
           wcerr := p.wcerr ++ ["Error: GetIDsOfNames failed - " ++ api.ErrorMessage hr] }) := by
  simp [SetPropertyValue, hargs, bind_eq, Proc.bind, IDispatch.GetIDsOfNames, hG,
    check_hresult_failed, hres]

theorem SetPropertyValue_rejected {σ : Type} (api : ComApi σ) (h : Nat) (name : String)
    (args : List VARIANT) (p : Process σ) (hr : HRESULT) (d : DISPID) (s1 : σ)
    (hr2 : HRESULT) (res : VARIANT) (s2 : σ) (hargs : args ≠ [])
    (hG : api.GetIDsOfNames p.com h name = ((hr, d), s1)) (hres : FAILED hr = false)
    (hI : api.Invoke s1 h d DISPATCH_PROPERTYPUT
            ⟨args.reverse, [DISPID_PROPERTYPUT], UINT args.length, 1⟩ false = ((hr2, res), s2))
    (hrej : FAILED hr2 = true) :
    SetPropertyValue api (some h) name args p
      = (.exited 1,
         { com := s2,
           trace := p.trace ++ [.GetIDsOfNames h name,
             .Invoke h d DISPATCH_PROPERTYPUT
               ⟨args.reverse, [DISPID_PROPERTYPUT], UINT args.length, 1⟩ false],
           wcerr := p.wcerr ++
             ["Error: Invoke PROPERTYPUT failed - " ++ api.ErrorMessage hr2] }) := by
  simp [SetPropertyValue, hargs, bind_eq, Proc.bind, IDispatch.GetIDsOfNames, IDispatch.Invoke,
    hG, hI, check_hresult_ok, check_hresult_failed, hres, hrej]

theorem SetPropertyValue_ok {σ : Type} (api : ComApi σ) (h : Nat) (name : String)
    (args : List VARIANT) (p : Process σ) (hr : HRESULT) (d : DISPID) (s1 : σ)
    (hr2 : HRESULT) (res : VARIANT) (s2 : σ) (hargs : args ≠ [])
    (hG : api.GetIDsOfNames p.com h name = ((hr, d), s1)) (hres : FAILED hr = false)
    (hI : api.Invoke s1 h d DISPATCH_PROPERTYPUT
            ⟨args.reverse, [DISPID_PROPERTYPUT], UINT args.length, 1⟩ false = ((hr2, res), s2))
    (hok : FAILED hr2 = false) :
    SetPropertyValue api (some h) name args p
      = (.returned (),
         { com := s2,
           trace := p.trace ++ [.GetIDsOfNames h name,
             .Invoke h d DISPATCH_PROPERTYPUT
               ⟨args.reverse, [DISPID_PROPERTYPUT], UINT args.length, 1⟩ false],
           wcerr := p.wcerr }) := by
  simp [SetPropertyValue, hargs, bind_eq, Proc.bind, IDispatch.GetIDsOfNames, IDispatch.Invoke,
    hG, hI, check_hresult_ok, hres, hok]

theorem InvokeVoidMethod_unresolved {σ : Type} (api : ComApi σ) (h : Nat) (name : String)
    (args : List VARIANT) (p : Process σ) (hr : HRESULT) (d : DISPID) (s1 : σ)
    (hG : api.GetIDsOfNames p.com h name = ((hr, d), s1)) (hres : FAILED hr = true) :
    InvokeVoidMethod api (some h) name args p
      = (.exited 1,
         { com := s1, trace := p.trace ++ [.GetIDsOfNames h name],
           wcerr := p.wcerr ++ ["Error: GetIDsOfNames failed - " ++ api.ErrorMessage hr] }) := by
  simp [InvokeVoidMethod, bind_eq, Proc.bind, IDispatch.GetIDsOfNames, hG,
    check_hresult_failed, hres]

theorem InvokeVoidMethod_rejected {σ : Type} (api : ComApi σ) (h : Nat) (name : String)
    (args : List VARIANT) (p : Process σ) (hr : HRESULT) (d : DISPID) (s1 : σ)
    (hr2 : HRESULT) (res : VARIANT) (s2 : σ)
    (hG : api.GetIDsOfNames p.com h name = ((hr, d), s1)) (hres : FAILED hr = false)
    (hI : api.Invoke s1 h d DISPATCH_METHOD ⟨args.reverse, [], UINT args.length, 0⟩ false
            = ((hr2, res), s2))
    (hrej : FAILED hr2 = true) :
    InvokeVoidMethod api (some h) name args p
      = (.exited 1,
         { com := s2,
           trace := p.trace ++ [.GetIDsOfNames h name,
             .Invoke h d DISPATCH_METHOD ⟨args.reverse, [], UINT args.length, 0⟩ false],
           wcerr := p.wcerr ++
             ["Error: InvokeVoidMethod failed - " ++ api.ErrorMessage hr2] }) := by
  simp [InvokeVoidMethod, bind_eq, Proc.bind, IDispatch.GetIDsOfNames, IDispatch.Invoke, hG, hI,
    check_hresult_ok, check_hresult_failed, hres, hrej]

theorem InvokeVoidMethod_ok {σ : Type} (api : ComApi σ) (h : Nat) (name : String)
    (args : List VARIANT) (p : Process σ) (hr : HRESULT) (d : DISPID) (s1 : σ)
    (hr2 : HRESULT) (res : VARIANT) (s2 : σ)
    (hG : api.GetIDsOfNames p.com h name = ((hr, d), s1)) (hres : FAILED hr = false)
    (hI : api.Invoke s1 h d DISPATCH_METHOD ⟨args.reverse, [], UINT args.length, 0⟩ false
            = ((hr2, res), s2))
    (hok : FAILED hr2 = false) :
    InvokeVoidMethod api (some h) name args p
      = (.returned (),
         { com := s2,
           trace := p.trace ++ [.GetIDsOfNames h name,
             .Invoke h d DISPATCH_METHOD ⟨args.reverse, [], UINT args.length, 0⟩ false],
           wcerr := p.wcerr }) := by
  simp [InvokeVoidMethod, bind_eq, Proc.bind, IDispatch.GetIDsOfNames, IDispatch.Invoke, hG, hI,
    check_hresult_ok, hres, hok]

theorem InvokeMethod_unresolved {σ : Type} (api : ComApi σ) (T : CppType) (h : Nat)
    (name : String) (args : List VARIANT) (p : Process σ) (hr : HRESULT) (d : DISPID) (s1 : σ)
    (hG : api.GetIDsOfNames p.com h name = ((hr, d), s1)) (hres : FAILED hr = true) :
    InvokeMethod api T (some h) name args p
      = (.exited 1,
         { com := s1, trace := p.trace ++ [.GetIDsOfNames h name],
           wcerr := p.wcerr ++ ["Error: GetIDsOfNames failed - " ++ api.ErrorMessage hr] }) := by
  simp [InvokeMethod, bind_eq, Proc.bind, IDispatch.GetIDsOfNames, hG,
    check_hresult_failed, hres]

theorem InvokeMethod_rejected {σ : Type} (api : ComApi σ) (T : CppType) (h : Nat)
    (name : String) (args : List VARIANT) (p : Process σ) (hr : HRESULT) (d : DISPID) (s1 : σ)
    (hr2 : HRESULT) (res : VARIANT) (s2 : σ)
    (hG : api.GetIDsOfNames p.com h name = ((hr, d), s1)) (hres : FAILED hr = false)
    (hI : api.Invoke s1 h d DISPATCH_METHOD ⟨args.reverse, [], UINT args.length, 0⟩ true
            = ((hr2, res), s2))
    (hrej : FAILED hr2 = true) :
    InvokeMethod api T (some h) name args p
      = (.exited 1,
         { com := s2,
           trace := p.trace ++ [.GetIDsOfNames h name,
             .Invoke h d DISPATCH_METHOD ⟨args.reverse, [], UINT args.length, 0⟩ true],
           wcerr := p.wcerr ++ ["Error: Invoke failed - " ++ api.ErrorMessage hr2] }) := by
  simp [InvokeMethod, bind_eq, Proc.bind, IDispatch.GetIDsOfNames, IDispatch.Invoke, hG, hI,
    check_hresult_ok, check_hresult_failed, hres, hrej]

theorem InvokeMethod_ok {σ : Type} (api : ComApi σ) (T : CppType) (h : Nat)
    (name : String) (args : List VARIANT) (p : Process σ) (hr : HRESULT) (d : DISPID) (s1 : σ)
    (hr2 : HRESULT) (res : VARIANT) (s2 : σ)
    (hG : api.GetIDsOfNames p.com h name = ((hr, d), s1)) (hres : FAILED hr = false)
    (hI : api.Invoke s1 h d DISPATCH_METHOD ⟨args.reverse, [], UINT args.length, 0⟩ true
            = ((hr2, res), s2))
    (hok : FAILED hr2 = false) :
    InvokeMethod api T (some h) name args p
      = liftDecoded (InvokeMethod.extract T res)
         { com := s2,
           trace := p.trace ++ [.GetIDsOfNames h name,
             .Invoke h d DISPATCH_METHOD ⟨args.reverse, [], UINT args.length, 0⟩ true],
           wcerr := p.wcerr } := by
  simp only [InvokeMethod, bind_eq, pure_eq, Proc.bind, IDispatch.GetIDsOfNames,
    IDispatch.Invoke, hG, hI, check_hresult_ok, hres, hok, List.length_reverse]
  cases hx : InvokeMethod.extract T res <;> simp [liftDecoded, Proc.pure]

/-! ### Traces of the primitives on a member that resolves -/

theorem GetPropertyValue_trace {σ : Type} (api : ComApi σ) (h : Nat) (name : String)
    (args : List VARIANT) (p : Process σ) (hr : HRESULT) (d : DISPID) (s1 : σ)
    (hG : api.GetIDsOfNames p.com h name = ((hr, d), s1)) (hres : FAILED hr = false) :
    (GetPropertyValue api (some h) name args p).2.trace
      = p.trace ++ [.GetIDsOfNames h name,
          .Invoke h d DISPATCH_PROPERTYGET ⟨args.reverse, [], UINT args.length, 0⟩ true] := by
  rcases hI : api.Invoke s1 h d DISPATCH_PROPERTYGET ⟨args.reverse, [], UINT args.length, 0⟩ true
    with ⟨⟨hr2, res⟩, s2⟩
  cases hf : FAILED hr2
  · rw [GetPropertyValue_ok api h name args p hr d s1 hr2 res s2 hG hres hI hf]
  · rw [GetPropertyValue_rejected api h name args p hr d s1 hr2 res s2 hG hres hI hf]

theorem SetPropertyValue_trace {σ : Type} (api : ComApi σ) (h : Nat) (name : String)
    (args : List VARIANT) (p : Process σ) (hr : HRESULT) (d : DISPID) (s1 : σ)
    (hargs : args ≠ [])
    (hG : api.GetIDsOfNames p.com h name = ((hr, d), s1)) (hres : FAILED hr = false) :
    (SetPropertyValue api (some h) name args p).2.trace
      = p.trace ++ [.GetIDsOfNames h name,
          .Invoke h d DISPATCH_PROPERTYPUT
            ⟨args.reverse, [DISPID_PROPERTYPUT], UINT args.length, 1⟩ false] := by
  rcases hI : api.Invoke s1 h d DISPATCH_PROPERTYPUT
    ⟨args.reverse, [DISPID_PROPERTYPUT], UINT args.length, 1⟩ false with ⟨⟨hr2, res⟩, s2⟩
  cases hf : FAILED hr2
  · rw [SetPropertyValue_ok api h name args p hr d s1 hr2 res s2 hargs hG hres hI hf]
  · rw [SetPropertyValue_rejected api h name args p hr d s1 hr2 res s2 hargs hG hres hI hf]

theorem InvokeVoidMethod_trace {σ : Type} (api : ComApi σ) (h : Nat) (name : String)
    (args : List VARIANT) (p : Process σ) (hr : HRESULT) (d : DISPID) (s1 : σ)
    (hG : api.GetIDsOfNames p.com h name = ((hr, d), s1)) (hres : FAILED hr = false) :
    (InvokeVoidMethod api (some h) name args p).2.trace
      = p.trace ++ [.GetIDsOfNames h name,
          .Invoke h d DISPATCH_METHOD ⟨args.reverse, [], UINT args.length, 0⟩ false] := by
  rcases hI : api.Invoke s1 h d DISPATCH_METHOD ⟨args.reverse, [], UINT args.length, 0⟩ false
    with ⟨⟨hr2, res⟩, s2⟩
  cases hf : FAILED hr2
  · rw [InvokeVoidMethod_ok api h name args p hr d s1 hr2 res s2 hG hres hI hf]
  · rw [InvokeVoidMethod_rejected api h name args p hr d s1 hr2 res s2 hG hres hI hf]

theorem liftDecoded_process {σ α : Type} (x : Decoded α) (p : Process σ) :
    (liftDecoded x p).2 = p := by
  cases x <;> rfl

theorem InvokeMethod_trace {σ : Type} (api : ComApi σ) (T : CppType) (h : Nat) (name : String)
    (args : List VARIANT) (p : Process σ) (hr : HRESULT) (d : DISPID) (s1 : σ)
    (hG : api.GetIDsOfNames p.com h name = ((hr, d), s1)) (hres : FAILED hr = false) :
    (InvokeMethod api T (some h) name args p).2.trace
      = p.trace ++ [.GetIDsOfNames h name,
          .Invoke h d DISPATCH_METHOD ⟨args.reverse, [], UINT args.length, 0⟩ true] := by
  rcases hI : api.Invoke s1 h d DISPATCH_METHOD ⟨args.reverse, [], UINT args.length, 0⟩ true
    with ⟨⟨hr2, res⟩, s2⟩
  cases hf : FAILED hr2
  · rw [InvokeMethod_ok api T h name args p hr d s1 hr2 res s2 hG hres hI hf, liftDecoded_process]
  · rw [InvokeMethod_rejected api T h name args p hr d s1 hr2 res s2 hG hres hI hf]

theorem reverse_position (args : List VARIANT) (i : Nat) (hi : i < args.length) :
    args.reverse[i]? = args[args.length - 1 - i]? := by
  rw [List.getElem?_reverse hi]

theorem UINT_of_lt (n : Nat) (hn : n < 2 ^ 32) : UINT n = n := by
  unfold UINT
  exact Nat.mod_eq_of_lt hn

/-! ### The scalar conversions on known values -/

theorem floatToDouble_one : floatToDouble ⟨0x3F800000⟩ = ⟨0x3FF0000000000000⟩ := by decide

theorem floatToDouble_smallest_subnormal :
    floatToDouble ⟨0x00000001⟩ = ⟨0x36A0000000000000⟩ := by decide

theorem floatToDouble_minus_pi : floatToDouble ⟨0xC0490FDB⟩ = ⟨0xC00921FB60000000⟩ := by decide

theorem intToDouble_five : intToDouble 5 = ⟨0x4014000000000000⟩ := by decide

theorem intToDouble_int_min : intToDouble (-2147483648) = ⟨0xC1E0000000000000⟩ := by decide

/-! ## The claims -/

/-- C1. On a non-null handle whose member resolves, each of the four adapter primitives
makes one resolution and then one invocation, and the argument array of that invocation is
the call-site list reversed: it has the same length `n`, and position `i` holds
`args[n-1-i]`. The count field is `n` cast to `UINT`, which is `n` itself below `2^32`. -/
theorem transport_receives_reversed_arguments {σ : Type} (api : ComApi σ) (h : Nat)
    (name : String) (args : List VARIANT) (p : Process σ) (hr : HRESULT) (d : DISPID) (s1 : σ)
    (hG : api.GetIDsOfNames p.com h name = ((hr, d), s1)) (hres : FAILED hr = false) :
    (GetPropertyValue api (some h) name args p).2.trace
        = p.trace ++ [.GetIDsOfNames h name,
            .Invoke h d DISPATCH_PROPERTYGET ⟨args.reverse, [], UINT args.length, 0⟩ true]
    ∧ (args ≠ [] →
        (SetPropertyValue api (some h) name args p).2.trace
          = p.trace ++ [.GetIDsOfNames h name,
              .Invoke h d DISPATCH_PROPERTYPUT
                ⟨args.reverse, [DISPID_PROPERTYPUT], UINT args.length, 1⟩ false])
    ∧ (InvokeVoidMethod api (some h) name args p).2.trace
        = p.trace ++ [.GetIDsOfNames h name,
            .Invoke h d DISPATCH_METHOD ⟨args.reverse, [], UINT args.length, 0⟩ false]
    ∧ (∀ T : CppType, (InvokeMethod api T (some h) name args p).2.trace
        = p.trace ++ [.GetIDsOfNames h name,
            .Invoke h d DISPATCH_METHOD ⟨args.reverse, [], UINT args.length, 0⟩ true])
    ∧ args.reverse.length = args.length
    ∧ (∀ i, i < args.length → args.reverse[i]? = args[args.length - 1 - i]?)
    ∧ (args.length < 2 ^ 32 → UINT args.length = args.length) :=
  ⟨GetPropertyValue_trace api h name args p hr d s1 hG hres,
   fun hargs => SetPropertyValue_trace api h name args p hr d s1 hargs hG hres,
   InvokeVoidMethod_trace api h name args p hr d s1 hG hres,
   fun T => InvokeMethod_trace api T h name args p hr d s1 hG hres,
   List.length_reverse args,
   fun i hi => reverse_position args i hi,
   UINT_of_lt args.length⟩

/-- C1, on the stub: the call-site list `(1, 2, 3)` of `InvokeVoidMethod` reaches the
transport as `(3, 2, 1)` with count 3. -/
theorem transport_receives_reversed_arguments_witness :
    (stub.GetIDsOfNames (start stub0).com 0 "Open" = ((S_OK, 3), stub0) ∧ FAILED S_OK = false)
    ∧ (InvokeVoidMethod stub (some 0) "Open" [MakeIntArg 1, MakeIntArg 2, MakeIntArg 3]
        (start stub0)).2.trace
      = [.GetIDsOfNames 0 "Open",
         .Invoke 0 3 DISPATCH_METHOD ⟨[MakeIntArg 3, MakeIntArg 2, MakeIntArg 1], [], 3, 0⟩ false] :=
  ⟨⟨rfl, rfl⟩,
   (transport_receives_reversed_arguments stub 0 "Open"
      [MakeIntArg 1, MakeIntArg 2, MakeIntArg 3] (start stub0) S_OK 3 stub0 rfl rfl).2.2.1⟩

/-- C2. The tag test of the generic decode `variantTo<T>` is as claimed: each of the five
types fails with its mismatch error on every tag but its own, `double` also accepts `VT_R4`
and widens the float, and an integer tag is not coerced to `double` nor a boolean tag to
`int`. With the matching tag, `int`, `bool` and `double` return the payload. The two string
types do not: on a non-null `BSTR` with code units `w` they return `w` only up to its first
NUL (transcoded for the narrow type), and on a null `BSTR` the read is undefined. The
sibling decode in `InvokeMethod<std::wstring>` returns all of `w`, and the empty string on
a null `BSTR`. At the `BSTR` "a\0b" the generic decode returns "a" and the sibling "a\0b".
The float 1.0 under `VT_R4` decodes to the double 1.0. -/
theorem variantTo_string_decode_drops_payload {σ : Type} (api : ComApi σ) (v : VARIANT) :
    (v.vt = VT_I4 → variantTo api .int v = .ok v.lVal)
    ∧ (v.vt ≠ VT_I4 → variantTo api .int v = .error ⟨"Variant is not an int (VT_I4)"⟩)
    ∧ (v.vt = VT_BOOL → variantTo api .bool v = .ok (decide (v.boolVal = VARIANT_TRUE)))
    ∧ (v.vt ≠ VT_BOOL → variantTo api .bool v = .error ⟨"Variant is not a bool (VT_BOOL)"⟩)
    ∧ (v.vt = VT_R8 → variantTo api .double v = .ok v.dblVal)
    ∧ (v.vt = VT_R4 → variantTo api .double v = .ok (floatToDouble v.fltVal))
    ∧ (v.vt ≠ VT_R8 → v.vt ≠ VT_R4 →
        variantTo api .double v = .error ⟨"Variant is not a double (VT_R8 or VT_R4)"⟩)
    ∧ (v.vt ≠ VT_BSTR → variantTo api .wstring v = .error ⟨"Variant is not a BSTR (wstring)"⟩)
    ∧ (v.vt ≠ VT_BSTR → variantTo api .string v = .error ⟨"Variant is not a BSTR (string)"⟩)
    ∧ (v.vt = VT_I4 →
        variantTo api .double v = .error ⟨"Variant is not a double (VT_R8 or VT_R4)"⟩)
    ∧ (v.vt = VT_BOOL → variantTo api .int v = .error ⟨"Variant is not an int (VT_I4)"⟩)
    ∧ (∀ w, v.vt = VT_BSTR → v.bstrVal = some w →
        variantTo api .wstring v = .ok (c_str w)
        ∧ variantTo api .string v = .ok (c_str (api.ConvertBSTRToString (c_str w)))
        ∧ InvokeMethod.extract .wstring v = .ok w)
    ∧ (v.vt = VT_BSTR → v.bstrVal = none →
        variantTo api .wstring v = .undefined
        ∧ variantTo api .string v = .undefined
        ∧ InvokeMethod.extract .wstring v = .ok [])
    ∧ variantTo api .wstring ⟨VT_BSTR, 0, 0, ⟨0⟩, ⟨0⟩, some [97, 0, 98]⟩ = .ok [97]
    ∧ InvokeMethod.extract .wstring ⟨VT_BSTR, 0, 0, ⟨0⟩, ⟨0⟩, some [97, 0, 98]⟩
        = .ok [97, 0, 98]
    ∧ variantTo api .wstring ⟨VT_BSTR, 0, 0, ⟨0⟩, ⟨0⟩, none⟩ = .undefined
    ∧ variantTo api .double ⟨VT_R4, 0, 0, ⟨0x3F800000⟩, ⟨0⟩, none⟩
        = .ok ⟨0x3FF0000000000000⟩ := by
  refine ⟨?_, ?_, ?_, ?_, ?_, ?_, ?_, ?_, ?_, ?_, ?_, ?_, ?_, rfl, rfl, rfl, ?_⟩
  · intro h; simp [variantTo, h]
  · intro h; simp [variantTo, h]
  · intro h; simp [variantTo, h]
  · intro h; simp [variantTo, h]
  · intro h; simp [variantTo, h]
  · intro h; simp [variantTo, h, VT_R4, VT_R8]
  · intro h1 h2; simp [variantTo, h1, h2]
  · intro h; simp [variantTo, h]
  · intro h; simp [variantTo, h]
  · intro h; simp [variantTo, h, VT_I4, VT_R4, VT_R8]
  · intro h; simp [variantTo, h, VT_I4, VT_BOOL]
  · intro w h hw; simp [variantTo, InvokeMethod.extract, h, hw]
  · intro h hw; simp [variantTo, InvokeMethod.extract, h, hw]
  · simp [variantTo, VT_R4, VT_R8, floatToDouble_one]

/-- C2, on values: an integer 5 decodes as `int` to 5 and is refused as `double`; the
string argument built from "ab" decodes to "ab". -/
theorem variantTo_string_decode_drops_payload_witness :
    ((MakeIntArg 5).vt = VT_I4 ∧ (MakeStringArg [97, 98]).vt = VT_BSTR
      ∧ (MakeStringArg [97, 98]).bstrVal = some [97, 98])
    ∧ variantTo stub .int (MakeIntArg 5) = .ok (5 : Int)
    ∧ variantTo stub .double (MakeIntArg 5)
        = .error ⟨"Variant is not a double (VT_R8 or VT_R4)"⟩
    ∧ variantTo stub .wstring (MakeStringArg [97, 98]) = .ok (c_str [97, 98]) :=
  ⟨⟨rfl, rfl, rfl⟩,
   (variantTo_string_decode_drops_payload stub (MakeIntArg 5)).1 rfl,
   (variantTo_string_decode_drops_payload stub (MakeIntArg 5)).2.2.2.2.2.2.2.2.2.1 rfl,
   ((variantTo_string_decode_drops_payload stub (MakeStringArg [97, 98])).2.2.2.2.2.2.2.2.2.2.2.1
      [97, 98] rfl rfl).1⟩

/-- C3. On a non-null handle, `SetPropertyValue` with no argument throws the
invalid-arguments error and leaves the process as it was: nothing is resolved and nothing
is invoked. With at least one argument and a member that resolves to `d`, the calls made
are the resolution and one invocation on `d`, a property write whose named-argument list
is the single identifier `DISPID_PROPERTYPUT` with count 1. -/
theorem SetPropertyValue_contract {σ : Type} (api : ComApi σ) (h : Nat) (name : String)
    (p : Process σ) :
    SetPropertyValue api (some h) name [] p
      = (.thrown ⟨"Setter requires at least one argument (value to set)"⟩, p)
    ∧ ∀ (args : List VARIANT) (hr : HRESULT) (d : DISPID) (s1 : σ), args ≠ [] →
        api.GetIDsOfNames p.com h name = ((hr, d), s1) → FAILED hr = false →
        ∃ dp : DISPPARAMS,
          (SetPropertyValue api (some h) name args p).2.trace
            = p.trace ++ [.GetIDsOfNames h name, .Invoke h d DISPATCH_PROPERTYPUT dp false]
          ∧ dp.rgdispidNamedArgs = [DISPID_PROPERTYPUT] ∧ dp.cNamedArgs = 1
          ∧ dp.rgvarg = args.reverse := by
  refine ⟨by simp [SetPropertyValue, throwRuntimeError], ?_⟩
  intro args hr d s1 hargs hG hres
  exact ⟨⟨args.reverse, [DISPID_PROPERTYPUT], UINT args.length, 1⟩,
    SetPropertyValue_trace api h name args p hr d s1 hargs hG hres, rfl, rfl, rfl⟩

/-- C3, on the stub: writing 5 to `NumberOfLayers` makes one property write that carries
the assignment marker. -/
theorem SetPropertyValue_contract_witness :
    ([MakeIntArg 5] ≠ [] ∧ stub.GetIDsOfNames (start stub0).com 2 "NumberOfLayers" = ((S_OK, 1), stub0)
      ∧ FAILED S_OK = false)
    ∧ ∃ dp : DISPPARAMS,
        (SetPropertyValue stub (some 2) "NumberOfLayers" [MakeIntArg 5] (start stub0)).2.trace
          = (start stub0).trace
              ++ [.GetIDsOfNames 2 "NumberOfLayers", .Invoke 2 1 DISPATCH_PROPERTYPUT dp false]
        ∧ dp.rgdispidNamedArgs = [DISPID_PROPERTYPUT] ∧ dp.cNamedArgs = 1
        ∧ dp.rgvarg = [MakeIntArg 5].reverse :=
  ⟨⟨by simp, rfl, rfl⟩,
   (SetPropertyValue_contract stub 2 "NumberOfLayers" (start stub0)).2
     [MakeIntArg 5] S_OK 1 stub0 (by simp) rfl rfl⟩

/-- C10. Given a null handle, `GetPropertyValue`, `SetPropertyValue` (also with no argument)
and `InvokeMethod` throw "IDispatch is null" and leave the process untouched: nothing is
resolved or invoked. `InvokeVoidMethod` has no such test: it calls through the null
pointer, which is undefined behaviour and not a thrown error. -/
theorem null_handle {σ : Type} (api : ComApi σ) (name : String) (args : List VARIANT)
    (T : CppType) (p : Process σ) :
    GetPropertyValue api none name args p = (.thrown ⟨"IDispatch is null"⟩, p)
    ∧ SetPropertyValue api none name args p = (.thrown ⟨"IDispatch is null"⟩, p)
    ∧ SetPropertyValue api none name [] p = (.thrown ⟨"IDispatch is null"⟩, p)
    ∧ InvokeMethod api T none name args p = (.thrown ⟨"IDispatch is null"⟩, p)
    ∧ InvokeVoidMethod api none name args p = (.undefined, p)
    ∧ ∀ e, (InvokeVoidMethod api none name args p).1 ≠ .thrown e := by
  refine ⟨rfl, rfl, rfl, rfl, rfl, ?_⟩
  intro e h
  simp [InvokeVoidMethod, nullDereference] at h

/-- C9. When a method returns the value `v` (member resolved, invocation accepted), the
decode inside `InvokeMethod<double>` and the generic `variantTo<double>` agree on `VT_R8`
only: on `VT_I4` the first returns the integer widened and the second fails, on `VT_R4`
the first fails and the second returns the float widened, on any other tag both fail. -/
theorem double_decodes_disagree {σ : Type} (api : ComApi σ) (h : Nat) (name : String)
    (args : List VARIANT) (p : Process σ) (hr : HRESULT) (d : DISPID) (s1 : σ)
    (hr2 : HRESULT) (v : VARIANT) (s2 : σ)
    (hG : api.GetIDsOfNames p.com h name = ((hr, d), s1)) (hres : FAILED hr = false)
    (hI : api.Invoke s1 h d DISPATCH_METHOD ⟨args.reverse, [], UINT args.length, 0⟩ true
            = ((hr2, v), s2))
    (hok : FAILED hr2 = false) :
    (v.vt = VT_R8 →
        (InvokeMethod api .double (some h) name args p).1 = .returned v.dblVal
        ∧ variantTo api .double v = .ok v.dblVal)
    ∧ (v.vt = VT_I4 →
        (InvokeMethod api .double (some h) name args p).1 = .returned (intToDouble v.intVal)
        ∧ variantTo api .double v = .error ⟨"Variant is not a double (VT_R8 or VT_R4)"⟩)
    ∧ (v.vt = VT_R4 →
        (InvokeMethod api .double (some h) name args p).1
          = .thrown ⟨"Unexpected return type for double"⟩
        ∧ variantTo api .double v = .ok (floatToDouble v.fltVal))
    ∧ (v.vt ≠ VT_R8 → v.vt ≠ VT_I4 → v.vt ≠ VT_R4 →
        (InvokeMethod api .double (some h) name args p).1
          = .thrown ⟨"Unexpected return type for double"⟩
        ∧ variantTo api .double v = .error ⟨"Variant is not a double (VT_R8 or VT_R4)"⟩) := by
  rw [InvokeMethod_ok api .double h name args p hr d s1 hr2 v s2 hG hres hI hok]
  refine ⟨?_, ?_, ?_, ?_⟩
  · intro hv
    simp [InvokeMethod.extract, variantTo, hv, liftDecoded, Proc.pure]
  · intro hv
    simp [InvokeMethod.extract, variantTo, hv, liftDecoded, Proc.pure, VT_I4, VT_R8, VT_R4]
  · intro hv
    simp [InvokeMethod.extract, variantTo, hv, liftDecoded, Proc.pure, VT_I4, VT_R8, VT_R4]
  · intro h8 h4 hf
    simp [InvokeMethod.extract, variantTo, h8, h4, hf, liftDecoded, Proc.pure]

/-- C9, on the stub: its method `Count` returns the integer 0; `InvokeMethod<double>` turns
it into the double 0.0 where `variantTo<double>` refuses it. -/
theorem double_decodes_disagree_witness :
    (stub.GetIDsOfNames (start stub0).com 2 "Count" = ((S_OK, 4), stub0) ∧ FAILED S_OK = false
      ∧ stub.Invoke stub0 2 4 DISPATCH_METHOD ⟨[], [], 0, 0⟩ true = ((S_OK, MakeIntArg 0), stub0)
      ∧ (MakeIntArg 0).vt = VT_I4)
    ∧ (InvokeMethod stub .double (some 2) "Count" [] (start stub0)).1
        = .returned (intToDouble (MakeIntArg 0).intVal)
    ∧ variantTo stub .double (MakeIntArg 0)
        = .error ⟨"Variant is not a double (VT_R8 or VT_R4)"⟩ :=
  ⟨⟨rfl, rfl, rfl, rfl⟩,
   (double_decodes_disagree stub 2 "Count" [] (start stub0) S_OK 4 stub0 S_OK (MakeIntArg 0) stub0
      rfl rfl rfl rfl).2.1 rfl⟩

/-! ### Activation -/

theorem CreateDispatch_unregistered {σ : Type} (api : ComApi σ) (progID : String)
    (p : Process σ) (hr : HRESULT) (clsid : CLSID) (s1 : σ)
    (hC : api.CLSIDFromProgID p.com progID = ((hr, clsid), s1)) (hf : FAILED hr = true) :
    CreateDispatch api progID p
      = (.thrown ⟨"CLSIDFromProgID failed for " ++ narrow progID⟩,
         { com := s1, trace := p.trace ++ [.CLSIDFromProgID progID], wcerr := p.wcerr }) := by
  simp [CreateDispatch, bind_eq, Proc.bind, CLSIDFromProgID, hC, hf, throwRuntimeError]

theorem CreateDispatch_refused {σ : Type} (api : ComApi σ) (progID : String)
    (p : Process σ) (hr : HRESULT) (clsid : CLSID) (s1 : σ) (hr2 : HRESULT)
    (disp : IDispatchPtr) (s2 : σ)
    (hC : api.CLSIDFromProgID p.com progID = ((hr, clsid), s1)) (hok : FAILED hr = false)
    (hI : api.CoCreateInstance s1 clsid = ((hr2, disp), s2))
    (hf : FAILED hr2 = true ∨ disp = none) :
    CreateDispatch api progID p
      = (.thrown ⟨"CoCreateInstance failed for " ++ narrow progID⟩,
         { com := s2,
           trace := p.trace ++ [.CLSIDFromProgID progID, .CoCreateInstance clsid],
           wcerr := p.wcerr }) := by
  simp [CreateDispatch, bind_eq, Proc.bind, CLSIDFromProgID, CoCreateInstance, hC, hI, hok,
    throwRuntimeError, hf]

theorem CreateDispatch_ok {σ : Type} (api : ComApi σ) (progID : String)
    (p : Process σ) (hr : HRESULT) (clsid : CLSID) (s1 : σ) (hr2 : HRESULT)
    (h : Nat) (s2 : σ)
    (hC : api.CLSIDFromProgID p.com progID = ((hr, clsid), s1)) (hok : FAILED hr = false)
    (hI : api.CoCreateInstance s1 clsid = ((hr2, some h), s2)) (hok2 : FAILED hr2 = false) :
    CreateDispatch api progID p
      = (.returned (some h),
         { com := s2,
           trace := p.trace ++ [.CLSIDFromProgID progID, .CoCreateInstance clsid],
           wcerr := p.wcerr }) := by
  simp [CreateDispatch, bind_eq, pure_eq, Proc.pure, Proc.bind, CLSIDFromProgID,
    CoCreateInstance, hC, hI, hok, hok2]

/-! ### Calls a computation can add to the trace -/

theorem Proc.Adds.pure {σ α : Type} (ok : Call → Prop) (a : α) :
    Proc.Adds ok (Pure.pure a : Proc σ α) := by
  intro p
  exact ⟨[], by simp [pure_eq, Proc.pure], by simp⟩

theorem Proc.Adds.throw {σ α : Type} (ok : Call → Prop) (what : String) :
    Proc.Adds ok (throwRuntimeError what : Proc σ α) := by
  intro p
  exact ⟨[], by simp [throwRuntimeError], by simp⟩

theorem Proc.Adds.bind {σ α β : Type} (ok : Call → Prop) (m : Proc σ α) (f : α → Proc σ β)
    (hm : Proc.Adds ok m) (hf : ∀ a, Proc.Adds ok (f a)) : Proc.Adds ok (m >>= f) := by
  intro p
  obtain ⟨t, ht, hok⟩ := hm p
  rw [bind_eq]
  unfold Proc.bind
  rcases hmp : m p with ⟨o, q⟩
  rw [hmp] at ht
  cases o with
  | returned a =>
    obtain ⟨u, hu, huok⟩ := hf a q
    refine ⟨t ++ u, ?_, ?_⟩
    · simp only [hu]
      simp only [] at ht
      rw [ht, List.append_assoc]
    · intro c hc
      rcases List.mem_append.mp hc with h | h
      · exact hok c h
      · exact huok c h
  | thrown e => exact ⟨t, ht, hok⟩
  | exited st => exact ⟨t, ht, hok⟩
  | undefined => exact ⟨t, ht, hok⟩

theorem CreateDispatch_adds_no_release {σ : Type} (api : ComApi σ) (progID : String) :
    Proc.Adds Call.notRelease (CreateDispatch api progID) := by
  unfold CreateDispatch
  apply Proc.Adds.bind
  · intro p
    exact ⟨[.CLSIDFromProgID progID], rfl, by simp [Call.notRelease]⟩
  · rintro ⟨hr, clsid⟩
    simp only []
    split
    · exact Proc.Adds.throw _ _
    · apply Proc.Adds.bind
      · intro p
        exact ⟨[.CoCreateInstance clsid], rfl, by simp [Call.notRelease]⟩
      · rintro ⟨hr2, disp⟩
        simp only []
        split
        · exact Proc.Adds.throw _ _
        · exact Proc.Adds.pure _ _

theorem constructor_adds_no_release {σ : Type} (api : ComApi σ) :
    Proc.Adds Call.notRelease (SIMNRA.constructor api) := by
  unfold SIMNRA.constructor
  apply Proc.Adds.bind
  · intro p
    exact ⟨[.CoInitialize], rfl, by simp [Call.notRelease]⟩
  · intro hr
    split
    · exact Proc.Adds.throw _ _
    · iterate 10
        refine Proc.Adds.bind _ _ _ (CreateDispatch_adds_no_release api _) (fun _ => ?_)
      exact Proc.Adds.pure _ _

/-- The normal path: the destructor of a completed object releases each of the ten handles
once, in declaration order, and then closes the COM session. -/
theorem destructor_releases_each_handle {σ : Type} (api : ComApi σ) (p : Process σ)
    (a b c d e f g h i j : Nat) :
    (SIMNRA.destructor api
        { m_App := some a, m_Setup := some b, m_Target := some c, m_Calc := some d,
          m_Fit := some e, m_Projectile := some f, m_Spectrum := some g, m_Stopping := some h,
          m_PIGE := some i, m_CrossSec := some j } p).2.trace
      = p.trace ++ [.Release a, .Release b, .Release c, .Release d, .Release e, .Release f,
          .Release g, .Release h, .Release i, .Release j, Call.CoUninitialize] := by
  simp [SIMNRA.destructor, releaseIfSet, IDispatch.Release, CoUninitialize, bind_eq, Proc.bind]

/-- C4. The constructor never releases a handle, whatever the activations answer: every
call it adds to the trace is something other than a `Release`. In particular, against the
stub in which only the first `k+1` program identifiers are registered (`k+1` from 1 to 9),
it acquires the handles `0 .. k`, fails on the next activation by throwing, and has
released none of them when the exception reaches the caller. -/
theorem constructor_failure_releases_nothing :
    (∀ (σ : Type) (api : ComApi σ) (p : Process σ),
        ∃ t, (SIMNRA.constructor api p).2.trace = p.trace ++ t ∧ ∀ h, Call.Release h ∉ t)
    ∧ ∀ k : Fin 9,
        (SIMNRA.constructor stub (start (stubWith (k.val + 1)))).1
            = .thrown ⟨"CLSIDFromProgID failed for " ++ progIDs.getD (k.val + 1) ""⟩
        ∧ (SIMNRA.constructor stub (start (stubWith (k.val + 1)))).2.trace
            = Call.CoInitialize
                :: ((List.range (k.val + 1)).map
                      (fun i => [Call.CLSIDFromProgID (progIDs.getD i ""),
                                 Call.CoCreateInstance i])).flatten
                ++ [Call.CLSIDFromProgID (progIDs.getD (k.val + 1) "")] := by
  refine ⟨?_, ?_⟩
  · intro σ api p
    obtain ⟨t, ht, hok⟩ := constructor_adds_no_release api p
    exact ⟨t, ht, fun h hmem => hok _ hmem h rfl⟩
  · intro k
    fin_cases k <;> exact ⟨rfl, rfl⟩

/-- C5, as stated, fails: against the stub the program identifier "SIMNRA.nope" does not
activate, and `CreateDispatch` neither ends the process nor prints anything; it throws an
exception the caller can catch. -/
theorem activation_failure_is_thrown :
    FAILED (stub.CLSIDFromProgID (start stub0).com "SIMNRA.nope").1.1 = true
    ∧ (CreateDispatch stub "SIMNRA.nope" (start stub0)).1
        = .thrown ⟨"CLSIDFromProgID failed for SIMNRA.nope"⟩
    ∧ (∀ status, (CreateDispatch stub "SIMNRA.nope" (start stub0)).1 ≠ .exited status)
    ∧ (CreateDispatch stub "SIMNRA.nope" (start stub0)).2.wcerr = [] := by
  refine ⟨rfl, rfl, ?_, rfl⟩
  intro status h
  have h2 : (CreateDispatch stub "SIMNRA.nope" (start stub0)).1
      = .thrown ⟨"CLSIDFromProgID failed for SIMNRA.nope"⟩ := rfl
  rw [h2] at h
  cases h

/-- C5, amended. On a non-null handle, a member name that does not resolve and an
invocation that is rejected end the process with status 1 after one diagnostic line on
`std::wcerr`, in all four primitives. A failed activation (unknown program identifier,
refused or null instance) is thrown to the caller with nothing printed, and so is a decode
whose tag does not match. -/
theorem failure_kinds {σ : Type} (api : ComApi σ) (h : Nat) (name : String)
    (args : List VARIANT) (p : Process σ) (hr : HRESULT) (d : DISPID) (s1 : σ)
    (hG : api.GetIDsOfNames p.com h name = ((hr, d), s1)) :
    (FAILED hr = true →
        ((GetPropertyValue api (some h) name args p).1 = .exited 1
          ∧ (GetPropertyValue api (some h) name args p).2.wcerr
              = p.wcerr ++ ["Error: GetIDsOfNames failed - " ++ api.ErrorMessage hr])
        ∧ (args ≠ [] →
          (SetPropertyValue api (some h) name args p).1 = .exited 1
          ∧ (SetPropertyValue api (some h) name args p).2.wcerr
              = p.wcerr ++ ["Error: GetIDsOfNames failed - " ++ api.ErrorMessage hr])
        ∧ ((InvokeVoidMethod api (some h) name args p).1 = .exited 1
          ∧ (InvokeVoidMethod api (some h) name args p).2.wcerr
              = p.wcerr ++ ["Error: GetIDsOfNames failed - " ++ api.ErrorMessage hr])
        ∧ ∀ T, (InvokeMethod api T (some h) name args p).1 = .exited 1
          ∧ (InvokeMethod api T (some h) name args p).2.wcerr
              = p.wcerr ++ ["Error: GetIDsOfNames failed - " ++ api.ErrorMessage hr])
    ∧ (FAILED hr = false →
      ∀ (hr2 : HRESULT) (res : VARIANT) (s2 : σ), FAILED hr2 = true →
        (api.Invoke s1 h d DISPATCH_PROPERTYGET ⟨args.reverse, [], UINT args.length, 0⟩ true
            = ((hr2, res), s2) →
          (GetPropertyValue api (some h) name args p).1 = .exited 1
          ∧ (GetPropertyValue api (some h) name args p).2.wcerr
              = p.wcerr ++ ["Error: Invoke PROPERTYGET failed - " ++ api.ErrorMessage hr2])
        ∧ (args ≠ [] →
            api.Invoke s1 h d DISPATCH_PROPERTYPUT
              ⟨args.reverse, [DISPID_PROPERTYPUT], UINT args.length, 1⟩ false
              = ((hr2, res), s2) →
          (SetPropertyValue api (some h) name args p).1 = .exited 1
          ∧ (SetPropertyValue api (some h) name args p).2.wcerr
              = p.wcerr ++ ["Error: Invoke PROPERTYPUT failed - " ++ api.ErrorMessage hr2])
        ∧ (api.Invoke s1 h d DISPATCH_METHOD ⟨args.reverse, [], UINT args.length, 0⟩ false
            = ((hr2, res), s2) →
          (InvokeVoidMethod api (some h) name args p).1 = .exited 1
          ∧ (InvokeVoidMethod api (some h) name args p).2.wcerr
              = p.wcerr ++ ["Error: InvokeVoidMethod failed - " ++ api.ErrorMessage hr2])
        ∧ (api.Invoke s1 h d DISPATCH_METHOD ⟨args.reverse, [], UINT args.length, 0⟩ true
            = ((hr2, res), s2) →
          ∀ T, (InvokeMethod api T (some h) name args p).1 = .exited 1
            ∧ (InvokeMethod api T (some h) name args p).2.wcerr
                = p.wcerr ++ ["Error: Invoke failed - " ++ api.ErrorMessage hr2]))
    ∧ (∀ (progID : String) (hrc : HRESULT) (clsid : CLSID) (s : σ),
        api.CLSIDFromProgID p.com progID = ((hrc, clsid), s) →
        (FAILED hrc = true →
          (CreateDispatch api progID p).1
            = .thrown ⟨"CLSIDFromProgID failed for " ++ narrow progID⟩
          ∧ (CreateDispatch api progID p).2.wcerr = p.wcerr)
        ∧ (FAILED hrc = false →
          ∀ (hri : HRESULT) (disp : IDispatchPtr) (s3 : σ),
            api.CoCreateInstance s clsid = ((hri, disp), s3) →
            (FAILED hri = true ∨ disp = none) →
            (CreateDispatch api progID p).1
              = .thrown ⟨"CoCreateInstance failed for " ++ narrow progID⟩
            ∧ (CreateDispatch api progID p).2.wcerr = p.wcerr))
    ∧ (FAILED hr = false →
      ∀ (hr2 : HRESULT) (res : VARIANT) (s2 : σ) (T : CppType) (e : runtime_error),
        api.Invoke s1 h d DISPATCH_PROPERTYGET ⟨args.reverse, [], UINT args.length, 0⟩ true
          = ((hr2, res), s2) →
        FAILED hr2 = false → variantTo api T res = .error e →
        ((GetPropertyValue api (some h) name args >>= fun v =>
            liftDecoded (variantTo api T v)) p).1 = .thrown e
        ∧ ((GetPropertyValue api (some h) name args >>= fun v =>
            liftDecoded (variantTo api T v)) p).2.wcerr = p.wcerr) := by
  refine ⟨?_, ?_, ?_, ?_⟩
  · intro hf
    refine ⟨?_, ?_, ?_, ?_⟩
    · rw [GetPropertyValue_unresolved api h name args p hr d s1 hG hf]
      exact ⟨rfl, rfl⟩
    · intro hargs
      rw [SetPropertyValue_unresolved api h name args p hr d s1 hargs hG hf]
      exact ⟨rfl, rfl⟩
    · rw [InvokeVoidMethod_unresolved api h name args p hr d s1 hG hf]
      exact ⟨rfl, rfl⟩
    · intro T
      rw [InvokeMethod_unresolved api T h name args p hr d s1 hG hf]
      exact ⟨rfl, rfl⟩
  · intro hok hr2 res s2 hrej
    refine ⟨?_, ?_, ?_, ?_⟩
    · intro hI
      rw [GetPropertyValue_rejected api h name args p hr d s1 hr2 res s2 hG hok hI hrej]
      exact ⟨rfl, rfl⟩
    · intro hargs hI
      rw [SetPropertyValue_rejected api h name args p hr d s1 hr2 res s2 hargs hG hok hI hrej]
      exact ⟨rfl, rfl⟩
    · intro hI
      rw [InvokeVoidMethod_rejected api h name args p hr d s1 hr2 res s2 hG hok hI hrej]
      exact ⟨rfl, rfl⟩
    · intro hI T
      rw [InvokeMethod_rejected api T h name args p hr d s1 hr2 res s2 hG hok hI hrej]
      exact ⟨rfl, rfl⟩
  · intro progID hrc clsid s hC
    refine ⟨?_, ?_⟩
    · intro hf
      rw [CreateDispatch_unregistered api progID p hrc clsid s hC hf]
      exact ⟨rfl, rfl⟩
    · intro hok hri disp s3 hI hf
      rw [CreateDispatch_refused api progID p hrc clsid s hri disp s3 hC hok hI hf]
      exact ⟨rfl, rfl⟩
  · intro hok hr2 res s2 T e hI hok2 he
    simp only [bind_eq, Proc.bind,
      GetPropertyValue_ok api h name args p hr d s1 hr2 res s2 hG hok hI hok2, he, liftDecoded]
    exact ⟨trivial, trivial⟩

/-- C5 amended, on the stub: the unknown member "Nope" ends the process with a diagnostic. -/
theorem failure_kinds_witness :
    (stub.GetIDsOfNames (start stub0).com 0 "Nope" = ((DISP_E_UNKNOWNNAME, -1), stub0)
      ∧ FAILED DISP_E_UNKNOWNNAME = true)
    ∧ (GetPropertyValue stub (some 0) "Nope" [] (start stub0)).1 = .exited 1
    ∧ (GetPropertyValue stub (some 0) "Nope" [] (start stub0)).2.wcerr
        = ["Error: GetIDsOfNames failed - Unknown error"] :=
  ⟨⟨rfl, rfl⟩,
   ((failure_kinds stub 0 "Nope" [] (start stub0) DISP_E_UNKNOWNNAME (-1) stub0 rfl).1 rfl).1⟩

/-! ### The facade table -/

theorem c_str_of_no_nul (s : List Nat) (h : 0 ∉ s) : c_str s = s := by
  unfold c_str
  rw [List.takeWhile_eq_self_iff]
  intro c hc
  have : c ≠ 0 := fun h0 => h (h0 ▸ hc)
  simpa using this

theorem c_str_idem (s : List Nat) : c_str (c_str s) = c_str s := by
  apply c_str_of_no_nul
  intro h
  have := List.mem_takeWhile_imp h
  simp at this

theorem MakeStringArg_c_str (s : WString) : MakeStringArg (c_str s) = MakeStringArg s := by
  simp [MakeStringArg, c_str_idem]

theorem reads_property {σ : Type} (api : ComApi σ) (T : CppType) (h : Nat) (name : String)
    (args : List VARIANT) :
    ReadsProperty api T
      (GetPropertyValue api (some h) name args >>= fun v => liftDecoded (variantTo api T v))
      h name args := by
  intro p hr d s1 hG hres
  refine ⟨?_, ?_⟩
  · rcases hI : api.Invoke s1 h d DISPATCH_PROPERTYGET
      ⟨args.reverse, [], UINT args.length, 0⟩ true with ⟨⟨hr2, res⟩, s2⟩
    cases hf : FAILED hr2
    · simp only [bind_eq, Proc.bind,
        GetPropertyValue_ok api h name args p hr d s1 hr2 res s2 hG hres hI hf,
        liftDecoded_process]
    · simp only [bind_eq, Proc.bind,
        GetPropertyValue_rejected api h name args p hr d s1 hr2 res s2 hG hres hI hf]
  · intro hr2 res s2 hI hok
    simp only [bind_eq, Proc.bind,
      GetPropertyValue_ok api h name args p hr d s1 hr2 res s2 hG hres hI hok]
    cases variantTo api T res <;> rfl

theorem writes_property {σ : Type} (api : ComApi σ) (h : Nat) (name : String)
    (args : List VARIANT) (hargs : args ≠ []) :
    WritesProperty api (SetPropertyValue api (some h) name args) h name args :=
  fun p hr d s1 hG hres => SetPropertyValue_trace api h name args p hr d s1 hargs hG hres

theorem calls_method {σ : Type} (api : ComApi σ) (h : Nat) (name : String)
    (args : List VARIANT) :
    CallsMethod api (InvokeVoidMethod api (some h) name args) h name args :=
  fun p hr d s1 hG hres => InvokeVoidMethod_trace api h name args p hr d s1 hG hres

/-- C8. Each facade method goes to the transport through the primitive, the sub-object, the
member name, the argument list (call-site order) and the decode type of the facade table.
The first six rows are the ones the table names. In the rows that follow, an omitted
optional argument (`none`) is sent as its default: -1 for the type of `open`, 1 for every
layer and element index. Then come the remaining methods of the class. The last four
conjuncts say what the arguments are: `MakeIntArg n` is tagged `VT_I4` and holds `n`,
`MakeDoubleArg x` is tagged `VT_R8` and holds `x`, `MakeStringArg w` is tagged `VT_BSTR`
and holds a non-null `BSTR` with the text of `w`, which is `w` itself when `w` has no
NUL. -/
theorem facade_table {σ : Type} (api : ComApi σ) (self : SIMNRA) (app target setup : Nat)
    (hA : self.m_App = some app) (hT : self.m_Target = some target)
    (hS : self.m_Setup = some setup) :
    ReadsProperty api .wstring (SIMNRA.getLastMessage api self) app "LastMessage" []
    ∧ (∀ path type, CallsMethod api (SIMNRA.open api self path (some type)) app "Open"
        [MakeStringArg path, MakeIntArg type])
    ∧ ReadsProperty api .int (SIMNRA.getNumberOfLayers api self) target "NumberOfLayers" []
    ∧ (∀ i t, WritesProperty api (SIMNRA.setLayerThickness api self i t) target "LayerThickness"
        [MakeIntArg i, MakeDoubleArg t])
    ∧ (∀ i j, ReadsProperty api .double
        (SIMNRA.getElementConcentration api self (some i) (some j)) target "ElementConcentration"
        [MakeIntArg i, MakeIntArg j])
    ∧ ReadsProperty api .double (SIMNRA.getBeamEnergy api self) setup "Energy" []
    ∧ (∀ path, CallsMethod api (SIMNRA.open api self path none) app "Open"
        [MakeStringArg path, MakeIntArg (-1)])
    ∧ (∀ l : Option Int, ReadsProperty api .double (SIMNRA.getLayerThickness api self l) target
        "LayerThickness" [MakeIntArg (l.getD 1)])
    ∧ (∀ l : Option Int, ReadsProperty api .int (SIMNRA.getNumberOfElements api self l) target
        "NumberOfElements" [MakeIntArg (l.getD 1)])
    ∧ (∀ l n : Option Int, WritesProperty api (SIMNRA.setNumberOfElements api self l n) target
        "NumberOfElements" [MakeIntArg (l.getD 1), MakeIntArg (n.getD 1)])
    ∧ (∀ l e : Option Int, ReadsProperty api .wstring (SIMNRA.getElementName api self l e) target
        "ElementName" [MakeIntArg (l.getD 1), MakeIntArg (e.getD 1)])
    ∧ (∀ (l e : Option Int) (name : Option WString), WritesProperty api
        (SIMNRA.setElementName api self l e name) target "ElementName"
        [MakeIntArg (l.getD 1), MakeIntArg (e.getD 1), MakeStringArg (name.getD [])])
    ∧ (∀ l e : Option Int, ReadsProperty api .double
        (SIMNRA.getElementConcentration api self l e) target "ElementConcentration"
        [MakeIntArg (l.getD 1), MakeIntArg (e.getD 1)])
    ∧ (∀ (l e : Option Int) (c : Option double), WritesProperty api
        (SIMNRA.setElementConcentration api self l e c) target "ElementConcentration"
        [MakeIntArg (l.getD 1), MakeIntArg (e.getD 1), MakeDoubleArg (c.getD ⟨0⟩)])
    ∧ CallsMethod api (SIMNRA.calculateSpectrum api self) app "CalculateSpectrum" []
    ∧ CallsMethod api (SIMNRA.calculateSpectrumFast api self) app "CalculateSpectrumFast" []
    ∧ (∀ n, WritesProperty api (SIMNRA.setNumberOfLayers api self n) target "NumberOfLayers"
        [MakeIntArg n])
    ∧ ReadsProperty api .double (SIMNRA.getBeamEnergyFWHM api self) setup "Beamspread" []
    ∧ (∀ w, WritesProperty api (SIMNRA.setBeamEnergyFWHM api self w) setup "Beamspread"
        [MakeDoubleArg w])
    ∧ (∀ E, WritesProperty api (SIMNRA.setBeamEnergy api self E) setup "Energy"
        [MakeDoubleArg E])
    ∧ (∀ n : Int, MakeIntArg n = ⟨VT_I4, n, 0, ⟨0⟩, ⟨0⟩, none⟩)
    ∧ (∀ x : double, MakeDoubleArg x = ⟨VT_R8, 0, 0, ⟨0⟩, x, none⟩)
    ∧ (∀ w : WString, MakeStringArg w = ⟨VT_BSTR, 0, 0, ⟨0⟩, ⟨0⟩, some (c_str w)⟩)
    ∧ (∀ w : WString, 0 ∉ w → (MakeStringArg w).bstrVal = some w) := by
  refine ⟨?_, ?_, ?_, ?_, ?_, ?_, ?_, ?_, ?_, ?_, ?_, ?_, ?_, ?_, ?_, ?_, ?_, ?_, ?_, ?_,
    fun _ => rfl, fun _ => rfl, fun _ => rfl,
    fun w hw => by simp [MakeStringArg, c_str_of_no_nul w hw]⟩
  · unfold SIMNRA.getLastMessage
    rw [hA]
    exact reads_property api .wstring app "LastMessage" []
  · intro path type
    unfold SIMNRA.open
    rw [hA, MakeStringArg_c_str]
    exact calls_method api app "Open" _
  · unfold SIMNRA.getNumberOfLayers
    rw [hT]
    exact reads_property api .int target "NumberOfLayers" []
  · intro i t
    unfold SIMNRA.setLayerThickness
    rw [hT]
    exact writes_property api target "LayerThickness" _ (by simp)
  · intro i j
    unfold SIMNRA.getElementConcentration
    rw [hT]
    exact reads_property api .double target "ElementConcentration" _
  · unfold SIMNRA.getBeamEnergy
    rw [hS]
    exact reads_property api .double setup "Energy" []
  · intro path
    unfold SIMNRA.open
    rw [hA, MakeStringArg_c_str]
    exact calls_method api app "Open" _
  · intro l
    unfold SIMNRA.getLayerThickness
    rw [hT]
    exact reads_property api .double target "LayerThickness" _
  · intro l
    unfold SIMNRA.getNumberOfElements
    rw [hT]
    exact reads_property api .int target "NumberOfElements" _
  · intro l n
    unfold SIMNRA.setNumberOfElements
    rw [hT]
    exact writes_property api target "NumberOfElements" _ (by simp)
  · intro l e
    unfold SIMNRA.getElementName
    rw [hT]
    exact reads_property api .wstring target "ElementName" _
  · intro l e name
    unfold SIMNRA.setElementName
    rw [hT]
    exact writes_property api target "ElementName" _ (by simp)
  · intro l e
    unfold SIMNRA.getElementConcentration
    rw [hT]
    exact reads_property api .double target "ElementConcentration" _
  · intro l e c
    unfold SIMNRA.setElementConcentration
    rw [hT]
    exact writes_property api target "ElementConcentration" _ (by simp)
  · unfold SIMNRA.calculateSpectrum
    rw [hA]
    exact calls_method api app "CalculateSpectrum" []
  · unfold SIMNRA.calculateSpectrumFast
    rw [hA]
    exact calls_method api app "CalculateSpectrumFast" []
  · intro n
    unfold SIMNRA.setNumberOfLayers
    rw [hT]
    exact writes_property api target "NumberOfLayers" _ (by simp)
  · unfold SIMNRA.getBeamEnergyFWHM
    rw [hS]
    exact reads_property api .double setup "Beamspread" []
  · intro w
    unfold SIMNRA.setBeamEnergyFWHM
    rw [hS]
    exact writes_property api setup "Beamspread" _ (by simp)
  · intro E
    unfold SIMNRA.setBeamEnergy
    rw [hS]
    exact writes_property api setup "Energy" _ (by simp)

/-- C8, on the stub: `open` of the path "AB" without a type sends the integer -1 and then
the string "AB" (last first) in one method call on the application object;
`setLayerThickness(3, 5.0)` sends the double 5.0 and then the integer 3 in one property
write on the target object. -/
theorem facade_table_witness :
    (simnra0.m_App = some 0 ∧ simnra0.m_Target = some 2 ∧ simnra0.m_Setup = some 1
      ∧ stub.GetIDsOfNames (start stub0).com 0 "Open" = ((S_OK, 3), stub0)
      ∧ stub.GetIDsOfNames (start stub0).com 2 "LayerThickness" = ((S_OK, 5), stub0)
      ∧ FAILED S_OK = false)
    ∧ (SIMNRA.open stub simnra0 [65, 66] none (start stub0)).2.trace
        = [.GetIDsOfNames 0 "Open",
           .Invoke 0 3 DISPATCH_METHOD
             ⟨[⟨VT_I4, -1, 0, ⟨0⟩, ⟨0⟩, none⟩, ⟨VT_BSTR, 0, 0, ⟨0⟩, ⟨0⟩, some [65, 66]⟩],
              [], 2, 0⟩ false]
    ∧ (SIMNRA.setLayerThickness stub simnra0 3 ⟨0x4014000000000000⟩ (start stub0)).2.trace
        = [.GetIDsOfNames 2 "LayerThickness",
           .Invoke 2 5 DISPATCH_PROPERTYPUT
             ⟨[⟨VT_R8, 0, 0, ⟨0⟩, ⟨0x4014000000000000⟩, none⟩, ⟨VT_I4, 3, 0, ⟨0⟩, ⟨0⟩, none⟩],
              [DISPID_PROPERTYPUT], 2, 1⟩ false] :=
  ⟨⟨rfl, rfl, rfl, rfl, rfl, rfl⟩,
   (facade_table stub simnra0 0 2 1 rfl rfl rfl).2.2.2.2.2.2.1 [65, 66]
     (start stub0) S_OK 3 stub0 rfl rfl,
   (facade_table stub simnra0 0 2 1 rfl rfl rfl).2.2.2.1 3 ⟨0x4014000000000000⟩
     (start stub0) S_OK 5 stub0 rfl rfl⟩

/-! ### The facade against a stub -/

/-- C6. Against an object that stores the value a property write carries and returns it on
the following read of the same property, `setNumberOfLayers(n)` followed by
`getNumberOfLayers()` returns `n`, for every integer `n` and from every process state,
that is, whatever the property held (and a read returned) before the write. -/
theorem numberOfLayers_round_trip {σ : Type} (api : ComApi σ) (self : SIMNRA) (h : Nat)
    (n : Int) (p : Process σ) (hT : self.m_Target = some h)
    (hE : EchoesProperty api h "NumberOfLayers") :
    ((SIMNRA.setNumberOfLayers api self n >>= fun _ => SIMNRA.getNumberOfLayers api self) p).1
      = .returned n := by
  obtain ⟨d, hG, hW⟩ := hE
  obtain ⟨hput, hget⟩ := hW p.com (MakeIntArg n)
  rcases hI : api.Invoke p.com h d DISPATCH_PROPERTYPUT
    ⟨[MakeIntArg n], [DISPID_PROPERTYPUT], 1, 1⟩ false with ⟨⟨hr2, res⟩, s2⟩
  rw [hI] at hput hget
  simp only [] at hput hget
  subst hput
  have hset := SetPropertyValue_ok api h "NumberOfLayers" [MakeIntArg n] p S_OK d p.com S_OK
    res s2 (by simp) (hG p.com) rfl hI rfl
  have hread := GetPropertyValue_ok api h "NumberOfLayers" []
    { com := s2,
      trace := p.trace ++ [.GetIDsOfNames h "NumberOfLayers",
        .Invoke h d DISPATCH_PROPERTYPUT
          ⟨[MakeIntArg n].reverse, [DISPID_PROPERTYPUT], UINT [MakeIntArg n].length, 1⟩ false],
      wcerr := p.wcerr } S_OK d s2 S_OK (MakeIntArg n) s2 (hG s2) rfl hget rfl
  simp only [SIMNRA.setNumberOfLayers, SIMNRA.getNumberOfLayers, hT, bind_eq, Proc.bind, hset,
    hread]
  rfl

theorem stub_echoes_numberOfLayers (h : Nat) : EchoesProperty stub h "NumberOfLayers" := by
  refine ⟨1, fun s => rfl, fun s v => ⟨rfl, rfl⟩⟩

/-- C6, on the stub, whose property holds 0 at the start: the first read returns 0, and
after it the write of 5 followed by a read returns 5. -/
theorem numberOfLayers_round_trip_witness :
    (simnra0.m_Target = some 2 ∧ EchoesProperty stub 2 "NumberOfLayers")
    ∧ (SIMNRA.getNumberOfLayers stub simnra0 (start stub0)).1 = .returned 0
    ∧ ((SIMNRA.setNumberOfLayers stub simnra0 5 >>= fun _ =>
          SIMNRA.getNumberOfLayers stub simnra0)
        (SIMNRA.getNumberOfLayers stub simnra0 (start stub0)).2).1 = .returned 5 :=
  ⟨⟨rfl, stub_echoes_numberOfLayers 2⟩, rfl,
   numberOfLayers_round_trip stub simnra0 2 5
     (SIMNRA.getNumberOfLayers stub simnra0 (start stub0)).2 rfl (stub_echoes_numberOfLayers 2)⟩

end SIMNRAApp
